import Mathlib

/-!
Shallow embedding of the card-scanning application's core logic:

* `src/app/api/secure-results/route.js` — the voice-verification result gate
  (POST / PUT / GET / DELETE handlers over the in-memory pending/verified maps);
* `src/app/hooks/captureBackSide.js` — the back-side capture state machine
  (anti-spoof pre-check, classification polling loop, max-frames fallback,
  timeout handler);
* the front-side capture loop (`captureAndSendFramesFront`);
* the camera negotiator (`findBestCameraForScan`, back side) with its label
  classification, scoring, telephoto/ultra-wide exclusion and empirical torch
  probing;
* the session-level attempt accounting (`handleDetectionFailure` in
  `src/app/page.js`).

JavaScript idioms are modelled explicitly: `Option` for possibly-missing
fields, string truthiness (`""` is falsy), `x || d` defaults via `getD`,
`Map` insertion-order semantics via association lists, and object literal /
spread construction via in-place-update insertion.
-/

namespace CardScan

/-! ### JavaScript-style helpers -/

/-- Truthiness of a possibly-missing string: `undefined` and `""` are falsy. -/
def optStrTruthy : Option String → Bool
  | some s => s != ""
  | none => false

/-- Character-list test used to model `String.prototype.startsWith`. -/
def charsStartWith : List Char → List Char → Bool
  | [], _ => true
  | _ :: _, [] => false
  | a :: as, b :: bs => a == b && charsStartWith as bs

/-- Character-list test used to model `String.prototype.includes`. -/
def charsContain (pat : List Char) : List Char → Bool
  | [] => pat.isEmpty
  | b :: bs => charsStartWith pat (b :: bs) || charsContain pat bs

/-- Model of JavaScript `s.includes(pat)`. -/
def jsIncludes (s pat : String) : Bool := charsContain pat.data s.data

/-! ### JSON values and objects

Response bodies and scan payloads are JSON objects.  An object is an
association list in key insertion order; inserting an existing key updates it
in place (JavaScript object / `Map` semantics). -/

inductive JVal where
  | jNull
  | jBool (b : Bool)
  | jStr (s : String)
  | jNum (n : Nat)
  deriving DecidableEq, Repr

abbrev JObj := List (String × JVal)

/-- `Map.prototype.get` / property read: first binding of the key. -/
def mapGet {α : Type} (m : List (String × α)) (k : String) : Option α :=
  (m.find? (fun p => p.1 == k)).map (·.2)

/-- `Map.prototype.set` / object-literal key insertion: update in place if the
key exists, else append. -/
def mapSet {α : Type} : List (String × α) → String → α → List (String × α)
  | [], k, v => [(k, v)]
  | p :: ps, k, v => if p.1 == k then (k, v) :: ps else p :: mapSet ps k v

/-- `Map.prototype.delete` (the resulting map). -/
def mapDeleteList {α : Type} (m : List (String × α)) (k : String) : List (String × α) :=
  m.filter (fun p => p.1 != k)

/-- `Map.prototype.has` / whether `delete` would return `true`. -/
def mapHasKey {α : Type} (m : List (String × α)) (k : String) : Bool :=
  m.any (fun p => p.1 == k)

/-- JSON object property lookup. -/
def objGet (o : JObj) (k : String) : Option JVal := mapGet o k

/-- Spread `{ ...o, ...kvs }`: keys of `kvs` inserted left to right, an
existing key keeps its position but takes the new value. -/
def objInsertAll (o : JObj) (kvs : JObj) : JObj :=
  kvs.foldl (fun acc p => mapSet acc p.1 p.2) o

/-! ### Result gate (`secure-results/route.js`) -/

/-- One stored scan result (value type of both `pendingResults` and
`verifiedResults`). -/
structure StoredResult where
  sessionId : String
  merchantId : Option String
  scanData : JObj
  voiceVerified : Bool
  verificationId : Option String
  createdAt : Nat
  verifiedAt : Option Nat
  deriving DecidableEq, Repr

/-- The two module-level maps of the route. -/
structure GateState where
  pending : List (String × StoredResult)
  verified : List (String × StoredResult)
  deriving DecidableEq, Repr

/-- Initial (module-load) state: both maps empty. -/
def gateState0 : GateState := ⟨[], []⟩

def fiveMinutesMs : Nat := 5 * 60 * 1000

/-- `cleanupExpiredResults`: drop pending entries older than five minutes and
verified entries verified more than five minutes ago (`undefined < n` is
false, so an entry without `verifiedAt` is kept). -/
def cleanupExpiredResults (now : Nat) (s : GateState) : GateState :=
  { pending := s.pending.filter (fun p => !decide (p.2.createdAt < now - fiveMinutesMs))
    verified := s.verified.filter (fun p =>
      match p.2.verifiedAt with
      | some t => !decide (t < now - fiveMinutesMs)
      | none => true) }

/-- One HTTP call against the route.  `none` models an absent body field /
query parameter; `Date.now()` is passed explicitly. -/
inductive GateOp where
  | post (sessionId : Option String) (scanData : Option JObj) (merchantId : Option String) (now : Nat)
  | put (resultId : Option String) (verificationId : Option String) (now : Nat)
  | get (sessionId : Option String) (resultId : Option String)
  | del (resultId : Option String)
  | sweep (now : Nat)
  deriving DecidableEq, Repr

/-- The response branches of the four handlers. -/
inductive GateResp where
  | badRequest (msg : String)
  | postOk (resultId : String)
  | putOk
  | putNotFound
  | getPendingSession
  | getUnverified
  | getNotFound
  | getReleased (foundResultId : String) (result : StoredResult)
  | deleteOk
  | deleteNotFound
  | noResp
  deriving DecidableEq, Repr

/-- Body of the released (verified) GET response: the fixed envelope fields in
literal order, `encrypted_data` read off the payload (dropped when absent,
mirroring `undefined` being dropped by JSON serialisation), then
`...result.scanData` spread last. -/
def releasedBody (result : StoredResult) : JObj :=
  let b0 : JObj := [("success", .jBool true), ("status", .jStr "verified"),
                    ("complete_scan", .jBool true)]
  let b1 : JObj :=
    match objGet result.scanData "encrypted_data" with
    | some v => b0 ++ [("encrypted_data", v)]
    | none => b0
  let b2 : JObj := b1 ++ [("voice_verified", .jBool true)]
  let b3 : JObj :=
    match result.verificationId with
    | some vid => b2 ++ [("verificationId", .jStr vid)]
    | none => b2
  let b4 : JObj :=
    match result.verifiedAt with
    | some t => b3 ++ [("verifiedAt", .jNum t)]
    | none => b3
  objInsertAll b4 result.scanData

/-- JSON body of each response branch, as constructed in the route. -/
def respBody : GateResp → JObj
  | .badRequest msg => [("error", .jStr msg)]
  | .postOk resultId =>
      [("success", .jBool true), ("resultId", .jStr resultId),
       ("status", .jStr "pending_voice_verification"), ("complete_scan", .jBool false),
       ("message", .jStr "Scan completed. Awaiting voice verification.")]
  | .putOk =>
      [("success", .jBool true),
       ("message", .jStr "Voice verification recorded. Data is now accessible.")]
  | .putNotFound => [("error", .jStr "Invalid or expired result ID")]
  | .getPendingSession =>
      [("success", .jBool false), ("status", .jStr "pending_voice_verification"),
       ("complete_scan", .jBool false),
       ("message", .jStr "Voice verification not yet completed")]
  | .getUnverified =>
      [("success", .jBool false), ("status", .jStr "pending_voice_verification"),
       ("complete_scan", .jBool false),
       ("message", .jStr "Voice verification required before accessing scan data")]
  | .getNotFound =>
      [("error", .jStr "No results found for this session"), ("complete_scan", .jBool false)]
  | .getReleased _ result => releasedBody result
  | .deleteOk =>
      [("success", .jBool true), ("message", .jStr "Result deleted successfully")]
  | .deleteNotFound => [("error", .jStr "Result not found")]
  | .noResp => []

/-- GET lookup by session id: search `verifiedResults` first, then
`pendingResults` ("still pending"), else 404. -/
def getBySession (s : GateState) (sessionId : Option String) : GateState × GateResp :=
  let sid := sessionId.getD ""
  match s.verified.find? (fun p => p.2.sessionId == sid) with
  | some pr => if pr.2.voiceVerified then (s, .getReleased pr.1 pr.2) else (s, .getUnverified)
  | none =>
    match s.pending.find? (fun p => p.2.sessionId == sid) with
    | some _ => (s, .getPendingSession)
    | none => (s, .getNotFound)

/-- One step of the route: the four exported handlers plus the periodic
cleanup timer. -/
def gateStep (s : GateState) : GateOp → GateState × GateResp
  | .post sessionId scanData merchantId now =>
    match sessionId, scanData with
    | some sid, some sd =>
      if sid == "" then (s, .badRequest "sessionId and scanData are required")
      else
        let resultId := "result_" ++ sid ++ "_" ++ toString now
        let entry : StoredResult :=
          { sessionId := sid, merchantId := merchantId, scanData := sd,
            voiceVerified := false, verificationId := none,
            createdAt := now, verifiedAt := none }
        let s1 : GateState := { s with pending := mapSet s.pending resultId entry }
        (cleanupExpiredResults now s1, .postOk resultId)
    | _, _ => (s, .badRequest "sessionId and scanData are required")
  | .put resultId verificationId now =>
    match resultId, verificationId with
    | some rid, some vid =>
      if rid == "" || vid == "" then (s, .badRequest "resultId and verificationId are required")
      else
        match mapGet s.pending rid with
        | none => (s, .putNotFound)
        | some pendingResult =>
          let entry := { pendingResult with
            voiceVerified := true
            verificationId := some vid
            verifiedAt := some now }
          ({ pending := mapDeleteList s.pending rid
             verified := mapSet s.verified rid entry }, .putOk)
    | _, _ => (s, .badRequest "resultId and verificationId are required")
  | .get sessionId resultId =>
    if !optStrTruthy sessionId && !optStrTruthy resultId then
      (s, .badRequest "sessionId or resultId is required")
    else
      match resultId with
      | some rid =>
        if rid != "" then
          match mapGet s.verified rid with
          | none => (s, .getNotFound)
          | some result =>
            if result.voiceVerified then (s, .getReleased rid result)
            else (s, .getUnverified)
        else getBySession s sessionId
      | none => getBySession s sessionId
  | .del resultId =>
    match resultId with
    | some rid =>
      if rid == "" then (s, .badRequest "resultId is required")
      else
        let existed := mapHasKey s.pending rid || mapHasKey s.verified rid
        let s' : GateState := { pending := mapDeleteList s.pending rid
                                verified := mapDeleteList s.verified rid }
        if existed then (s', .deleteOk) else (s', .deleteNotFound)
    | none => (s, .badRequest "resultId is required")
  | .sweep now => (cleanupExpiredResults now s, .noResp)

/-- Final state after a sequence of calls. -/
def gateRun : GateState → List GateOp → GateState
  | s, [] => s
  | s, op :: ops => gateRun (gateStep s op).1 ops

/-- The response of each call, in order. -/
def gateOutputs : GateState → List GateOp → List GateResp
  | _, [] => []
  | s, op :: ops => (gateStep s op).2 :: gateOutputs (gateStep s op).1 ops

/-! ### Classification responses (`sendFrameToAPI` results) -/

/-- The `buffer_info` sub-object of a classification response. -/
structure BufferInfo where
  front_frames_buffered : Option Nat
  back_frames_buffered : Option Nat
  deriving DecidableEq, Repr

/-- A classification-endpoint response, with every field the capture loops
inspect.  `none` models an absent (`undefined`) property. -/
structure ApiResponse where
  status : Option String
  complete_scan : Option Bool
  encrypted_data : Option String
  encrypted_card_data : Option String
  error : Option String
  fake_card : Option Bool
  validation_failed : Option Bool
  validation_reason : Option String
  message_state : Option String
  movement_state : Option String
  buffer_info : Option BufferInfo
  magstrip : Option Bool
  signstrip : Option Bool
  hologram : Option Bool
  chip : Option Bool
  bank_logo : Option Bool
  capturedImage : Option String
  deriving DecidableEq, Repr

/-- A response with every field absent. -/
def emptyApiResponse : ApiResponse :=
  ⟨none, none, none, none, none, none, none, none, none, none, none, none,
   none, none, none, none, none⟩

/-- `apiResponse.buffer_info?.front_frames_buffered`. -/
def bufFront (r : ApiResponse) : Option Nat := r.buffer_info.bind (·.front_frames_buffered)

/-- `apiResponse.buffer_info?.back_frames_buffered`. -/
def bufBack (r : ApiResponse) : Option Nat := r.buffer_info.bind (·.back_frames_buffered)

/-- `bufferedFrames >= 4` where `undefined >= 4` is false. -/
def geFour : Option Nat → Bool
  | some n => decide (4 ≤ n)
  | none => false

/-- `countBackSideFeatures`: how many of the three back-side flags are truthy
(`apiResponse.magstrip || false` etc.). -/
def countBackSideFeatures (r : ApiResponse) : Nat :=
  (if r.magstrip.getD false then 1 else 0) +
  (if r.signstrip.getD false then 1 else 0) +
  (if r.hologram.getD false then 1 else 0)

/-- The sanitised copy of a response: `delete sanitizedResponse.encrypted_data;
delete sanitizedResponse.encrypted_card_data`. -/
def sanitizeResponse (r : ApiResponse) : ApiResponse :=
  { r with encrypted_data := none, encrypted_card_data := none }

/-- `requiredBackSideFeatures` in `captureBackSide.js`. -/
def requiredBackSideFeatures : Nat := 2

/-- `maxFrames` in both capture loops. -/
def maxFrames : Nat := 8

/-! ### Back-side polling loop (`captureBackSide.js`, `processFrame` and the
two end-of-run handlers) -/

/-- The mutable locals of the loop that survive between responses. -/
structure LoopState where
  lastApiResponse : Option ApiResponse
  successfulFramesCount : Nat
  deriving DecidableEq, Repr

def initLoopState : LoopState := ⟨none, 0⟩

/-- How a capture run settles: the value passed to `resolve`, or the message
of the `Error` passed to `reject`. -/
inductive RunOutcome where
  | success (resp : ApiResponse)
  | failure (msg : String)
  deriving DecidableEq, Repr

/-- Result of evaluating one response inside the loop: either the promise
settles, or the loop continues with updated locals. -/
inductive StepOutcome where
  | terminal (o : RunOutcome)
  | next (st : LoopState)
  deriving DecidableEq, Repr

/-- `processFrame` in `captureBackSide.js`, from the point where
`sendFrameToAPI` has returned, evaluating one response in source order:
terminal-status short-circuit (resolving the sanitised copy), the dead
`success && complete_scan` branch, the legacy `encrypted_card_data` branch,
`wait_for_front`/`wait_for_back` restart, success tracking, front-phase fake
card, brand mismatch, late validation failure, then the per-side success
predicates. -/
def processBackFileResp (phase : String) (st : LoopState) (r : ApiResponse) : StepOutcome :=
  if r.status == some "success" || r.status == some "already_completed" then
    .terminal (.success (sanitizeResponse r))
  else if r.status == some "success" && r.complete_scan == some true then
    .terminal (.success r)
  else if optStrTruthy r.encrypted_card_data && optStrTruthy r.status then
    .terminal (.success r)
  else if r.status == some "wait_for_front" || r.status == some "wait_for_back" then
    .terminal (.failure "Session restart required")
  else
    let st' : LoopState :=
      if !optStrTruthy r.error then ⟨some r, st.successfulFramesCount + 1⟩ else st
    if phase == "front" && r.fake_card == some true then
      .terminal (.failure "Unacceptable Card Detection")
    else
      let bufferedFrames := if phase == "front" then bufFront r else bufBack r
      if phase == "back" && r.validation_failed == some true &&
         r.validation_reason == some "brand_mismatch" then
        .terminal (.failure "Brand mismatch")
      else if geFour bufferedFrames &&
              (r.message_state == some "VALIDATION_FAILED" ||
               r.movement_state == some "VALIDATION_FAILED") then
        .terminal (.failure "Validation failed")
      else if phase == "back" && geFour bufferedFrames then
        if requiredBackSideFeatures ≤ countBackSideFeatures r then .terminal (.success r)
        else .next st'
      else if phase != "back" && geFour bufferedFrames then
        .terminal (.success r)
      else .next st'

/-- Run the loop body over the responses in order until the promise settles
or the responses run out. -/
def runPollingWith (proc : LoopState → ApiResponse → StepOutcome) :
    LoopState → List ApiResponse → Option RunOutcome × LoopState
  | st, [] => (none, st)
  | st, r :: rs =>
    match proc st r with
    | .terminal o => (some o, st)
    | .next st' => runPollingWith proc st' rs

/-- The `frameNumber >= maxFrames` fallback inside `processFrame` in
`captureBackSide.js` (fires once the post-max-frames grace window elapses). -/
def backFileMaxFramesFallback (phase : String) (st : LoopState) : RunOutcome :=
  match st.lastApiResponse with
  | none => .failure "Maximum frames reached without sufficient data"
  | some last =>
    if (optStrTruthy last.encrypted_card_data && optStrTruthy last.status) ||
       last.status == some "success" || last.status == some "already_completed" then
      .success last
    else if phase == "back" then
      let bufferedFrames := (bufBack last).getD 0
      if 4 ≤ bufferedFrames && requiredBackSideFeatures ≤ countBackSideFeatures last then
        .success last
      else .failure "Insufficient back side features detected"
    else .success last

/-- The 30s `setTimeout` handler in `captureBackSide.js`.  A promise settles
exactly once, so in the back phase the trailing `resolve(lastApiResponse)`
(which the source reaches after the phase-specific `reject`) is a no-op. -/
def backFileTimeoutHandler (phase : String) (st : LoopState) : RunOutcome :=
  if st.successfulFramesCount == 0 then
    .failure "Timeout: No successful API responses received"
  else
    match st.lastApiResponse with
    | none => .failure "Timeout: No successful API responses received"
    | some last =>
      if last.status == some "success" || last.status == some "already_completed" ||
         (last.status == some "success" && last.complete_scan == some true) then
        .success last
      else if optStrTruthy last.encrypted_card_data && optStrTruthy last.status then
        .success last
      else if phase == "back" then
        let bufferedFrames := (bufBack last).getD 0
        if 4 ≤ bufferedFrames && requiredBackSideFeatures ≤ countBackSideFeatures last then
          .success last
        else .failure "Insufficient back side features"
      else .success last

/-- A back-side run (at most `maxFrames` responses) that ends, when no
response settles it, with the 30-second timeout handler. -/
def backRunTimeoutPath (resps : List ApiResponse) : RunOutcome :=
  match runPollingWith (processBackFileResp "back") initLoopState (resps.take maxFrames) with
  | (some o, _) => o
  | (none, st) => backFileTimeoutHandler "back" st

/-- A back-side run that ends, when no response settles it, with the
max-frames grace-window fallback. -/
def backRunMaxFramesPath (resps : List ApiResponse) : RunOutcome :=
  match runPollingWith (processBackFileResp "back") initLoopState (resps.take maxFrames) with
  | (some o, _) => o
  | (none, st) => backFileMaxFramesFallback "back" st

/-- No response in the run carries the explicit terminal statuses. -/
def noTerminalStatus (resps : List ApiResponse) : Prop :=
  ∀ r ∈ resps, r.status ≠ some "success" ∧ r.status ≠ some "already_completed"

/-- No response in the run carries a truthy legacy `encrypted_card_data`. -/
def noLegacyEncrypted (resps : List ApiResponse) : Prop :=
  ∀ r ∈ resps, optStrTruthy r.encrypted_card_data = false

/-! ### Back-side pre-scan (flash, liveness frame, anti-spoof check) -/

/-- Observable camera/flow events of one back-side attempt before and at the
start of the polling loop. -/
inductive CamEvent where
  | flashOn
  | captureLivenessFrame
  | screenDetectCall
  | flashOff
  | captureScanFrame
  | showCapturedImage
  | enterPollLoop
  deriving DecidableEq, Repr

/-- Outcome of the `screen-detect/detect-screen` call, as the code branches
on it. -/
inductive ScreenDetectResult where
  | serverError500 (detail : String)
  | okJson (is_screen : Option Bool)
  | otherStatus (code : Nat)
  | networkFailure
  deriving DecidableEq, Repr

/-- Whether the anti-spoof check passes (`backScreenDetectionPassed`): a 500
(any detail), a 2xx with `is_screen` false or absent, any other status, or a
network error all pass; only an explicit `is_screen: true` fails. -/
def screenDetectionPassed : ScreenDetectResult → Bool
  | .serverError500 _ => true
  | .okJson (some b) => !b
  | .okJson none => true
  | .otherStatus _ => true
  | .networkFailure => true

/-- The message of the error thrown on a positive screen detection. -/
def fakeCardBackMsg : String :=
  "Unacceptable Card Detection on back side - screen or photo detected instead of physical card"

/-- Steps 1–7 of `captureAndSendFrames` (back side): flash on, liveness frame,
anti-spoof call; on failure flash off (when the collaborator exists) and
throw; on pass flash off, scan-frame capture, image display, then the polling
loop.  Returns the event trace and the thrown error, if any. -/
def backPreScan (hasEnable hasDisable hasOnImage : Bool) (sd : ScreenDetectResult) :
    List CamEvent × Option String :=
  let evStart := (if hasEnable then [CamEvent.flashOn] else []) ++
                 [CamEvent.captureLivenessFrame, CamEvent.screenDetectCall]
  if screenDetectionPassed sd then
    let evOff := if hasDisable then [CamEvent.flashOff] else []
    let evShow := if hasOnImage then [CamEvent.showCapturedImage] else []
    (evStart ++ evOff ++ [CamEvent.captureScanFrame] ++ evShow ++ [CamEvent.enterPollLoop],
     none)
  else
    ((evStart ++ if hasDisable then [CamEvent.flashOff] else []), some fakeCardBackMsg)

/-! ### Front-side polling loop (`captureAndSendFramesFront`) -/

/-- `processFrame` in the front-side file, from the point where
`sendFrameToAPI` has returned.  Branch order follows the source: terminal
status (resolving `{...apiResponse, capturedImage}`), legacy encrypted
response, validation-phase checks, generic validation check for other phases,
`wait_for_front` restart, success tracking, front fake card, brand mismatch,
late validation failure, then the per-side success predicates. -/
def processFrontFileResp (phase : String) (capturedImageDataUrl : String)
    (st : LoopState) (r : ApiResponse) : StepOutcome :=
  if r.status == some "success" || r.status == some "already_completed" then
    .terminal (.success { r with capturedImage := some capturedImageDataUrl })
  else if optStrTruthy r.encrypted_card_data && optStrTruthy r.status then
    .terminal (.success r)
  else if phase == "validation" &&
          (r.message_state == some "VALIDATION_FAILED" ||
           r.movement_state == some "VALIDATION_FAILED") then
    .terminal (.failure "Validation failed")
  else if phase != "front" && phase != "back" &&
          (r.message_state == some "VALIDATION_FAILED" ||
           r.movement_state == some "VALIDATION_FAILED") then
    .terminal (.failure "Validation failed")
  else if r.status == some "wait_for_front" then
    .terminal (.failure "Session restart required")
  else
    let st' : LoopState :=
      if !optStrTruthy r.error && r.status != some "wait_for_back" then
        ⟨some r, st.successfulFramesCount + 1⟩
      else st
    if phase == "front" && r.fake_card == some true then
      .terminal (.failure "Unacceptable Card Detection")
    else
      let bufferedFrames := if phase == "front" then bufFront r else bufBack r
      if phase == "back" && r.validation_failed == some true &&
         r.validation_reason == some "brand_mismatch" then
        .terminal (.failure "Brand mismatch")
      else if geFour bufferedFrames &&
              (r.message_state == some "VALIDATION_FAILED" ||
               r.movement_state == some "VALIDATION_FAILED") then
        .terminal (.failure "Validation failed")
      else if phase == "front" && geFour bufferedFrames &&
              r.chip == some true && r.bank_logo == some true then
        .terminal (.success r)
      else if phase == "back" && geFour bufferedFrames &&
              2 ≤ countBackSideFeatures r then
        .terminal (.success r)
      else .next st'

/-- The max-frames grace-window fallback of the front-side file. -/
def frontFileMaxFramesFallback (phase : String) (st : LoopState) : RunOutcome :=
  match st.lastApiResponse with
  | none => .failure "Maximum frames reached without sufficient data"
  | some last =>
    if phase == "back" then
      let bufferedFrames := (bufBack last).getD 0
      if 4 ≤ bufferedFrames && 2 ≤ countBackSideFeatures last then .success last
      else .failure "Insufficient back side features detected"
    else if phase == "front" then
      let bufferedFrames := (bufFront last).getD 0
      if 4 ≤ bufferedFrames && last.chip == some true && last.bank_logo == some true then
        .success last
      else .failure "Front side requirements not met: chip and bank_logo must be detected"
    else .failure "Maximum frames reached without sufficient data"

/-- The 30s timeout handler of the front-side file. -/
def frontFileTimeoutHandler (phase : String) (st : LoopState) : RunOutcome :=
  if st.successfulFramesCount == 0 then
    .failure "Timeout: Network Error No successful API responses received"
  else
    match st.lastApiResponse with
    | none => .failure "Timeout: Network Error or No successful API responses received"
    | some last =>
      if (optStrTruthy last.encrypted_card_data && optStrTruthy last.status) ||
         last.status == some "success" || last.status == some "already_completed" then
        .success last
      else if phase == "back" then
        let bufferedFrames := (bufBack last).getD 0
        if 4 ≤ bufferedFrames && 3 ≤ countBackSideFeatures last then .success last
        else .failure "Insufficient back side features"
      else if phase == "front" then
        let bufferedFrames := (bufFront last).getD 0
        if 4 ≤ bufferedFrames && last.chip == some true && last.bank_logo == some true then
          .success last
        else .failure "Front side requirements not met: chip and bank_logo must both be detected"
      else .failure "Timeout: requirements not met"

/-- A front-side run ending, when nothing settles it, with the timeout
handler. -/
def frontRunTimeoutPath (img : String) (resps : List ApiResponse) : RunOutcome :=
  match runPollingWith (processFrontFileResp "front" img) initLoopState
      (resps.take maxFrames) with
  | (some o, _) => o
  | (none, st) => frontFileTimeoutHandler "front" st

/-- A front-side run ending, when nothing settles it, with the max-frames
fallback. -/
def frontRunMaxFramesPath (img : String) (resps : List ApiResponse) : RunOutcome :=
  match runPollingWith (processFrontFileResp "front" img) initLoopState
      (resps.take maxFrames) with
  | (some o, _) => o
  | (none, st) => frontFileMaxFramesFallback "front" st

/-! ### Camera negotiator (`findBestCameraForScan`, back side) -/

/-- `(device.label || '').toLowerCase()` (per-character ASCII lowering, which
is how it acts on the Latin-or-Korean labels the classifier matches). -/
def labelLower (label : Option String) : String :=
  ⟨(label.getD "").data.map Char.toLower⟩

def backIndicators : List String :=
  ["back", "rear", "environment", "main", "wide", "ultra", "telephoto", "macro", "후면", "뒤"]

def frontIndicators : List String := ["front", "selfie", "user", "facetime", "전면", "앞"]

/-- `classifyCameraFacing`: keyword matching on the lower-cased label, back
indicators first, then front, then Android `camera N` index patterns. -/
def classifyCameraFacing (label : Option String) : String :=
  let l := labelLower label
  if backIndicators.any (fun ind => jsIncludes l ind) then "back"
  else if frontIndicators.any (fun ind => jsIncludes l ind) then "front"
  else if jsIncludes l "camera 0" || jsIncludes l "camera2 0" then "back"
  else if jsIncludes l "camera 1" || jsIncludes l "camera2 1" then "front"
  else "unknown"

/-- `scoreCameraForScanning`: cumulative label-based score (can go
negative). -/
def scoreCameraForScanning (label : Option String) : Int :=
  let l := labelLower label
  let score : Int := 0
  let score := if jsIncludes l "dual wide" || jsIncludes l "wide camera" then score + 100 else score
  let score := if jsIncludes l "main" then score + 90 else score
  let score := if jsIncludes l "wide" && !jsIncludes l "ultra" then score + 80 else score
  let score := if jsIncludes l "back camera" && !jsIncludes l "ultra" && !jsIncludes l "telephoto"
               then score + 70 else score
  let score := if jsIncludes l "dual camera" then score + 60 else score
  let score := if jsIncludes l "triple camera" then score + 50 else score
  let score := if jsIncludes l "ultra" then score - 50 else score
  let score := if jsIncludes l "telephoto" || jsIncludes l "tele" || jsIncludes l "zoom"
               then score - 100 else score
  score

/-- An enumerated `videoinput` device. -/
structure MediaDevice where
  deviceId : Option String
  groupId : Option String
  kind : String
  label : Option String
  deriving DecidableEq, Repr

/-- The `cameraObj` built from a device during classification. -/
structure ClassifiedCam where
  deviceId : Option String
  groupId : Option String
  kind : String
  label : Option String
  facing : String
  deriving DecidableEq, Repr

def classifyDevice (d : MediaDevice) : ClassifiedCam :=
  ⟨d.deviceId, d.groupId, d.kind, d.label, classifyCameraFacing d.label⟩

/-- Score of a candidate (the `score` attached before sorting). -/
def camScore (c : ClassifiedCam) : Int := scoreCameraForScanning c.label

/-- The STEP-1 exclusion: telephoto (`telephoto`/`tele`/`zoom`) or ultra-wide
(`ultra`) labels are dropped entirely. -/
def isExcludedLens (c : ClassifiedCam) : Bool :=
  let l := labelLower c.label
  jsIncludes l "telephoto" || jsIncludes l "tele" || jsIncludes l "zoom" || jsIncludes l "ultra"

/-- Stable descending insertion by score (model of the stable
`sort((a, b) => b.score - a.score)`). -/
def insertByScoreDesc (c : ClassifiedCam) : List ClassifiedCam → List ClassifiedCam
  | [] => [c]
  | d :: ds => if camScore d < camScore c then c :: d :: ds else d :: insertByScoreDesc c ds

/-- Stable descending sort by score. -/
def sortByScoreDesc : List ClassifiedCam → List ClassifiedCam
  | [] => []
  | c :: cs => insertByScoreDesc c (sortByScoreDesc cs)

/-- `targetCameras` before the exclusion/sort step: facing filter with the
unknown-facing and all-cameras fallbacks. -/
def backTargetCameras (devices : List MediaDevice) : List ClassifiedCam :=
  let classified := devices.map classifyDevice
  let t1 := classified.filter (fun c => c.facing == "back")
  let t2 := if t1.isEmpty then classified.filter (fun c => c.facing != "front") else t1
  if t2.isEmpty then classified else t2

/-- The ordered candidate list a back-side negotiation will try for torch:
when more than one candidate remains, telephoto/ultra-wide exclusion and a
stable descending sort by score (the source applies this step only for
`targetCameras.length > 1`). -/
def backCandidates (devices : List MediaDevice) : List ClassifiedCam :=
  let t := backTargetCameras devices
  if 1 < t.length then sortByScoreDesc (t.filter (fun c => !isExcludedLens c))
  else t

/-- The `deviceId` validity guard of the torch loop (`continue` on a missing,
non-string or empty id). -/
def validDeviceId : Option String → Bool
  | some id => id != ""
  | none => false

/-- A candidate the torch loop would accept: valid id and the empirical
probe succeeds.  `torchOk` is the oracle for
`checkCameraTorchSupport(...).supported`. -/
def torchVerifiable (torchOk : String → Bool) (c : ClassifiedCam) : Bool :=
  validDeviceId c.deviceId && torchOk (c.deviceId.getD "")

/-- The torch loop: first candidate (in list order) with a valid id that the
empirical probe verifies. -/
def findTorchCapable (torchOk : String → Bool) : List ClassifiedCam → Option ClassifiedCam
  | [] => none
  | c :: cs =>
    if torchVerifiable torchOk c then some c
    else findTorchCapable torchOk cs

/-- The object `findBestCameraForScan` returns. -/
structure CamSelection where
  deviceId : Option String
  hasTorch : Bool
  facing : String
  label : String
  error : Option String
  testMode : Bool
  deriving DecidableEq, Repr

/-- The compile-time torch-bypass flag, as set in the source. -/
def TEST_MODE : Bool := true

/-- `a || b || ... || d` over strings (first truthy, else the default). -/
def firstTruthyStr : List (Option String) → String → String
  | [], d => d
  | o :: os, d =>
    match o with
    | some s => if s != "" then s else firstTruthyStr os d
    | none => firstTruthyStr os d

/-- Selection over an already-built candidate list: torch loop, then on
total torch failure either the TEST_MODE bypass (top candidate,
`hasTorch: false`) or the `NO_TORCH_CAMERA` error; `NO_CAMERA` when the
candidate list is empty.  `trackLabelOf` is the oracle for the probe's
`trackLabel`. -/
def selectBackCamera (testMode : Bool) (torchOk : String → Bool)
    (trackLabelOf : String → Option String) : List ClassifiedCam → CamSelection
  | [] => ⟨none, false, "unknown", "No camera", some "NO_CAMERA", false⟩
  | c :: rest =>
    match findTorchCapable torchOk (c :: rest) with
    | some cam =>
      ⟨cam.deviceId, true, cam.facing,
       firstTruthyStr [cam.label, trackLabelOf (cam.deviceId.getD "")] "Unknown",
       none, false⟩
    | none =>
      if testMode then
        ⟨(if optStrTruthy c.deviceId then c.deviceId else none), false, c.facing,
         firstTruthyStr [c.label] "Test Camera", none, true⟩
      else
        ⟨none, false, "back", "No torch camera", some "NO_TORCH_CAMERA", false⟩

/-- `findBestCameraForScan('back')`: empty enumeration default, candidate
construction, then selection. -/
def findBestCameraForScanBack (testMode : Bool) (torchOk : String → Bool)
    (trackLabelOf : String → Option String) (devices : List MediaDevice) : CamSelection :=
  if devices.isEmpty then
    ⟨none, false, "unknown", "default", none, false⟩
  else
    selectBackCamera testMode torchOk trackLabelOf (backCandidates devices)

/-! ### Session attempt accounting (`handleDetectionFailure` in `page.js`) -/

def MAX_ATTEMPTS : Nat := 5

/-- One call to `reportFailure(scan_id, sessionId, reason, operation,
merchantId)`. -/
structure FailureReport where
  scan_id : String
  sessionId : String
  reason : String
  operation : String
  merchantId : String
  deriving DecidableEq, Repr

/-- The component state `handleDetectionFailure` reads and writes, plus the
accumulated telemetry calls. -/
structure SessionState where
  sessionId : String
  attemptCount : Nat
  maxAttemptsReached : Bool
  currentOperation : Option String
  errorMessage : String
  currentPhase : String
  reports : List FailureReport
  deriving DecidableEq, Repr

/-- Session state when a scan session starts (before any failure). -/
def initSession (sid : String) : SessionState := ⟨sid, 0, false, none, "", "idle", []⟩

/-- Template-literal rendering of a possibly-undefined value. -/
def jsShow : Option String → String
  | some s => s
  | none => "undefined"

/-- `message ? prefixed-message : default`, the reason string sent when the
attempt ceiling is reached. -/
def maxRetryReason : Option String → String
  | some m =>
    if m != "" then "MAX RETRY REACHED: " ++ m
    else "MAX RETRY REACHED: Failed after 5 attempts"
  | none => "MAX RETRY REACHED: Failed after 5 attempts"

/-- `operation || "unknown"`. -/
def operationTag : Option String → String
  | some op => if op != "" then op else "unknown"
  | none => "unknown"

/-- `handleDetectionFailure(message, operation)`: increment the attempt
counter, record the failing operation; at or above `MAX_ATTEMPTS` enter the
terminal state and (when `sessionId && merchantId`) send one
"MAX RETRY REACHED"-prefixed report tagged `operation || "unknown"`; below
the ceiling set a retryable error state. -/
def handleDetectionFailure (st : SessionState)
    (message operation merchantId : Option String) : SessionState :=
  let newAttemptCount := st.attemptCount + 1
  if MAX_ATTEMPTS ≤ newAttemptCount then
    let reports :=
      if st.sessionId != "" && optStrTruthy merchantId then
        st.reports ++
          [⟨"", st.sessionId, maxRetryReason message, operationTag operation,
            merchantId.getD ""⟩]
      else st.reports
    { st with
      attemptCount := newAttemptCount
      currentOperation := operation
      maxAttemptsReached := true
      errorMessage := "Maximum attempts reached. Please contact support for assistance."
      currentPhase := "max-attempts-reached"
      reports := reports }
  else
    { st with
      attemptCount := newAttemptCount
      currentOperation := operation
      errorMessage := jsShow message ++ " (Attempt " ++ toString newAttemptCount ++ "/" ++
        toString MAX_ATTEMPTS ++ ")"
      currentPhase := "error" }

/-- One side-level detection failure, with the arguments of the resulting
`handleDetectionFailure` call and the merchant id visible at that moment. -/
structure FailureEvent where
  message : Option String
  operation : Option String
  merchantId : Option String
  deriving DecidableEq, Repr

/-- Process a sequence of consecutive side-level failures. -/
def runFailures (st : SessionState) : List FailureEvent → SessionState
  | [] => st
  | f :: fs => runFailures (handleDetectionFailure st f.message f.operation f.merchantId) fs

/-! ### Concrete instances used by witnesses and counterexamples -/

/-- A benign scan payload (`{score: 0.9}`, with the score scaled to a Nat). -/
def scanPayloadA : JObj := [("score", JVal.jNum 9)]

/-- A payload that (ab)uses the reserved response key `complete_scan`. -/
def scanPayloadClash : JObj := [("complete_scan", JVal.jBool false)]

/-- Submit, verify, fetch-by-result-id. -/
def roundTripOps : List GateOp :=
  [.post (some "s1") (some scanPayloadA) none 0,
   .put (some "result_s1_0") (some "v1") 1,
   .get none (some "result_s1_0")]

/-- Submit, verify, fetch-by-result-id, with the clashing payload. -/
def roundTripClashOps : List GateOp :=
  [.post (some "s1") (some scanPayloadClash) none 0,
   .put (some "result_s1_0") (some "v1") 1,
   .get none (some "result_s1_0")]

/-- Submit then immediately fetch the pending entry by its result id. -/
def pendingByResultIdOps : List GateOp :=
  [.post (some "s1") (some scanPayloadA) none 0,
   .get none (some "result_s1_0")]

/-- The stored entry produced by `roundTripOps` after verification. -/
def roundTripEntry : StoredResult :=
  { sessionId := "s1", merchantId := none, scanData := scanPayloadA,
    voiceVerified := true, verificationId := some "v1", createdAt := 0,
    verifiedAt := some 1 }

/-- Back-side response: non-terminal status, legacy `encrypted_card_data`,
five buffered frames, a single feature flag. -/
def respLegacyBack : ApiResponse :=
  { emptyApiResponse with
    status := some "processing"
    encrypted_card_data := some "LEGACY"
    buffer_info := some ⟨none, some 5⟩
    magstrip := some true }

/-- Back-side response meeting the feature predicate while still carrying
`encrypted_data`. -/
def respSensitiveBack : ApiResponse :=
  { emptyApiResponse with
    status := some "processing"
    encrypted_data := some "SECRET"
    buffer_info := some ⟨none, some 4⟩
    magstrip := some true
    signstrip := some true }

/-- Back-side response with a terminal status and sensitive fields. -/
def respTerminalBack : ApiResponse :=
  { emptyApiResponse with
    status := some "success"
    encrypted_data := some "SECRET"
    encrypted_card_data := some "LEGACY"
    buffer_info := some ⟨none, some 5⟩ }

/-- Back-side response meeting the feature predicate cleanly. -/
def respGoodBack : ApiResponse :=
  { emptyApiResponse with
    status := some "processing"
    buffer_info := some ⟨none, some 4⟩
    magstrip := some true
    hologram := some true }

/-- Front-side response: non-terminal status, legacy `encrypted_card_data`,
`bank_logo` never detected. -/
def respLegacyFront : ApiResponse :=
  { emptyApiResponse with
    status := some "processing"
    encrypted_card_data := some "LEGACY"
    buffer_info := some ⟨some 5, none⟩
    chip := some true
    bank_logo := some false }

/-- Scenario C response: `{chip:true, bank_logo:false,
buffer_info:{front_frames_buffered:5}}`. -/
def respScenarioC : ApiResponse :=
  { emptyApiResponse with
    buffer_info := some ⟨some 5, none⟩
    chip := some true
    bank_logo := some false }

/-- Front-side response meeting the front predicate cleanly. -/
def respGoodFront : ApiResponse :=
  { emptyApiResponse with
    status := some "processing"
    buffer_info := some ⟨some 4, none⟩
    chip := some true
    bank_logo := some true }

/-- Three enumerated back cameras: telephoto, main, dual-wide. -/
def devTeleA : MediaDevice := ⟨some "id-tele", none, "videoinput", some "Back Telephoto Camera"⟩

def devMainA : MediaDevice := ⟨some "id-main", none, "videoinput", some "Back Camera Main"⟩

def devWideA : MediaDevice := ⟨some "id-wide", none, "videoinput", some "Back Dual Wide Camera"⟩

/-- A side-level failure event with full telemetry context. -/
def failEventA : FailureEvent := ⟨some "Card not detected", some "front", some "m1"⟩

/-- The envelope keys of the released GET response; a payload key equal to
one of these overrides the envelope field because the payload is spread
last. -/
def reservedRespKeys : List String :=
  ["success", "status", "complete_scan", "encrypted_data", "voice_verified",
   "verificationId", "verifiedAt"]

/-! ## Lemmas -/

/-! ### Sorting and the torch loop -/

theorem mem_insertByScoreDesc {x c : ClassifiedCam} {l : List ClassifiedCam}
    (h : x ∈ insertByScoreDesc c l) : x = c ∨ x ∈ l := by
  induction l with
  | nil => simpa [insertByScoreDesc] using h
  | cons d ds ih =>
    rw [insertByScoreDesc] at h
    split at h
    · rcases List.mem_cons.mp h with h | h
      · exact Or.inl h
      · exact Or.inr h
    · rcases List.mem_cons.mp h with h | h
      · exact Or.inr (h ▸ List.mem_cons_self d ds)
      · rcases ih h with h | h
        · exact Or.inl h
        · exact Or.inr (List.mem_cons_of_mem d h)

theorem pairwise_insertByScoreDesc {c : ClassifiedCam} {l : List ClassifiedCam}
    (h : l.Pairwise (fun a b => camScore b ≤ camScore a)) :
    (insertByScoreDesc c l).Pairwise (fun a b => camScore b ≤ camScore a) := by
  induction l with
  | nil => simp [insertByScoreDesc]
  | cons d ds ih =>
    rw [List.pairwise_cons] at h
    rw [insertByScoreDesc]
    split
    · rename_i hlt
      refine List.pairwise_cons.mpr ⟨?_, List.pairwise_cons.mpr ⟨h.1, h.2⟩⟩
      intro b hb
      rcases List.mem_cons.mp hb with rfl | hb
      · exact le_of_lt hlt
      · exact le_trans (h.1 b hb) (le_of_lt hlt)
    · rename_i hnlt
      rw [not_lt] at hnlt
      refine List.pairwise_cons.mpr ⟨?_, ih h.2⟩
      intro b hb
      rcases mem_insertByScoreDesc hb with rfl | hb
      · exact hnlt
      · exact h.1 b hb

theorem pairwise_sortByScoreDesc (l : List ClassifiedCam) :
    (sortByScoreDesc l).Pairwise (fun a b => camScore b ≤ camScore a) := by
  induction l with
  | nil => simp [sortByScoreDesc]
  | cons c cs ih => exact pairwise_insertByScoreDesc ih

theorem backCandidates_pairwise (devices : List MediaDevice) :
    (backCandidates devices).Pairwise (fun a b => camScore b ≤ camScore a) := by
  rw [backCandidates]
  split
  · exact pairwise_sortByScoreDesc _
  · rename_i h
    rw [not_lt] at h
    rcases hcase : backTargetCameras devices with _ | ⟨a, _ | ⟨b, t⟩⟩
    · simp
    · simp
    · rw [hcase] at h
      simp at h

theorem findTorchCapable_eq_none {torchOk : String → Bool} {l : List ClassifiedCam}
    (h : ∀ c ∈ l, torchVerifiable torchOk c = false) :
    findTorchCapable torchOk l = none := by
  induction l with
  | nil => rfl
  | cons c cs ih =>
    rw [findTorchCapable]
    rw [h c (List.mem_cons_self c cs)]
    exact ih (fun d hd => h d (List.mem_cons_of_mem c hd))

theorem findTorchCapable_isSome {torchOk : String → Bool} {l : List ClassifiedCam}
    (h : ∃ c ∈ l, torchVerifiable torchOk c = true) :
    ∃ cam, findTorchCapable torchOk l = some cam := by
  induction l with
  | nil => simp at h
  | cons c cs ih =>
    rw [findTorchCapable]
    by_cases hv : torchVerifiable torchOk c = true
    · exact ⟨c, by rw [hv]; rfl⟩
    · rw [Bool.not_eq_true] at hv
      rw [hv]
      refine ih ?_
      rcases h with ⟨d, hd, hdv⟩
      rcases List.mem_cons.mp hd with rfl | hd
      · rw [hv] at hdv; cases hdv
      · exact ⟨d, hd, hdv⟩

theorem findTorchCapable_spec {torchOk : String → Bool} {l : List ClassifiedCam}
    {cam : ClassifiedCam}
    (hp : l.Pairwise (fun a b => camScore b ≤ camScore a))
    (h : findTorchCapable torchOk l = some cam) :
    cam ∈ l ∧ torchVerifiable torchOk cam = true ∧
      ∀ c ∈ l, torchVerifiable torchOk c = true → camScore c ≤ camScore cam := by
  induction l with
  | nil => simp [findTorchCapable] at h
  | cons c cs ih =>
    rw [List.pairwise_cons] at hp
    rw [findTorchCapable] at h
    by_cases hv : torchVerifiable torchOk c = true
    · rw [hv] at h
      simp only [if_true] at h
      have hcc : c = cam := by injection h
      subst hcc
      refine ⟨List.mem_cons_self c cs, hv, ?_⟩
      intro d hd _
      rcases List.mem_cons.mp hd with rfl | hd
      · exact le_refl _
      · exact hp.1 d hd
    · rw [Bool.not_eq_true] at hv
      rw [hv] at h
      simp only [Bool.false_eq_true, if_false] at h
      obtain ⟨hmem, hcv, hmax⟩ := ih hp.2 h
      refine ⟨List.mem_cons_of_mem c hmem, hcv, ?_⟩
      intro d hd hdv
      rcases List.mem_cons.mp hd with rfl | hd
      · rw [hv] at hdv; cases hdv
      · exact hmax d hd hdv

theorem backCandidates_of_devices_nil : backCandidates [] = [] := rfl

/-! ### Capture-loop lemmas -/

theorem geFour_imp_getD {o : Option Nat} (h : geFour o = true) : 4 ≤ o.getD 0 := by
  cases o with
  | none => simp [geFour] at h
  | some n => simpa [geFour] using h

theorem runPollingWith_none_last (proc : LoopState → ApiResponse → StepOutcome)
    (hproc : ∀ st r st', proc st r = .next st' →
      st'.lastApiResponse = st.lastApiResponse ∨ st'.lastApiResponse = some r) :
    ∀ (resps : List ApiResponse) (st st' : LoopState),
      runPollingWith proc st resps = (none, st') →
      st'.lastApiResponse = st.lastApiResponse ∨
        ∃ r ∈ resps, st'.lastApiResponse = some r := by
  intro resps
  induction resps with
  | nil =>
    intro st st' h
    rw [runPollingWith] at h
    cases h
    exact Or.inl rfl
  | cons r rs ih =>
    intro st st' h
    rw [runPollingWith] at h
    cases hp : proc st r with
    | terminal o => rw [hp] at h; cases h
    | next st1 =>
      rw [hp] at h
      rcases ih st1 st' h with h1 | ⟨r', hr', h2⟩
      · rcases hproc st r st1 hp with h2 | h2
        · exact Or.inl (h1.trans h2)
        · exact Or.inr ⟨r, List.mem_cons_self r rs, h1.trans h2⟩
      · exact Or.inr ⟨r', List.mem_cons_of_mem r hr', h2⟩

set_option maxHeartbeats 1000000 in
theorem processBackFileResp_next_last {st : LoopState} {r : ApiResponse} {st' : LoopState}
    (h : processBackFileResp "back" st r = .next st') :
    st'.lastApiResponse = st.lastApiResponse ∨ st'.lastApiResponse = some r := by
  simp only [processBackFileResp,
    show (("back" : String) == "front") = false from rfl,
    show (("back" : String) == "back") = true from rfl,
    show (("back" : String) != "back") = false from rfl,
    Bool.true_and, Bool.false_and, Bool.false_eq_true, if_false, if_true,
    Bool.false_or, Bool.or_false, Bool.and_false, Bool.and_true, Bool.or_self] at h
  split_ifs at h
  all_goals try cases h
  all_goals first
    | exact Or.inr rfl
    | exact Or.inl rfl

theorem processBackFileResp_terminal {st : LoopState} {r : ApiResponse} {o : RunOutcome}
    (hnt1 : r.status ≠ some "success") (hnt2 : r.status ≠ some "already_completed")
    (hnl : optStrTruthy r.encrypted_card_data = false)
    (h : processBackFileResp "back" st r = .terminal o) :
    (o = .success r ∧ geFour (bufBack r) = true ∧
      requiredBackSideFeatures ≤ countBackSideFeatures r) ∨
    (∃ msg, o = .failure msg) := by
  simp only [processBackFileResp,
    show (("back" : String) == "front") = false from rfl,
    show (("back" : String) == "back") = true from rfl,
    show (("back" : String) != "back") = false from rfl,
    beq_eq_false_iff_ne.mpr hnt1, beq_eq_false_iff_ne.mpr hnt2, hnl,
    Bool.true_and, Bool.false_and, Bool.false_eq_true, if_false, if_true,
    Bool.false_or, Bool.or_false, Bool.and_false, Bool.and_true, Bool.or_self] at h
  split_ifs at h
  all_goals try cases h
  all_goals first
    | exact Or.inr ⟨_, rfl⟩
    | (rename_i hc1 hc2
       exact Or.inl ⟨rfl, hc1, hc2⟩)

theorem backPolling_success :
    ∀ (resps : List ApiResponse),
      (∀ r ∈ resps, r.status ≠ some "success" ∧ r.status ≠ some "already_completed") →
      (∀ r ∈ resps, optStrTruthy r.encrypted_card_data = false) →
      ∀ (st st' : LoopState) (res : ApiResponse),
        runPollingWith (processBackFileResp "back") st resps = (some (.success res), st') →
        res ∈ resps ∧ 4 ≤ (bufBack res).getD 0 ∧
          requiredBackSideFeatures ≤ countBackSideFeatures res := by
  intro resps
  induction resps with
  | nil =>
    intro _ _ st st' res h
    rw [runPollingWith] at h
    cases h
  | cons r rs ih =>
    intro hnt hnl st st' res h
    rw [runPollingWith] at h
    cases hp : processBackFileResp "back" st r with
    | next st1 =>
      rw [hp] at h
      obtain ⟨hmem, hrest⟩ := ih (fun x hx => hnt x (List.mem_cons_of_mem r hx))
        (fun x hx => hnl x (List.mem_cons_of_mem r hx)) st1 st' res h
      exact ⟨List.mem_cons_of_mem r hmem, hrest⟩
    | terminal o =>
      rw [hp] at h
      have ho : o = .success res := by
        have := congrArg Prod.fst h
        simpa using this
      subst ho
      rcases processBackFileResp_terminal (hnt r (List.mem_cons_self r rs)).1
        (hnt r (List.mem_cons_self r rs)).2 (hnl r (List.mem_cons_self r rs)) hp with
        ⟨hres, hb, hcnt⟩ | ⟨msg, hmsg⟩
      · have hrr : res = r := by injection hres
        subst hrr
        exact ⟨List.mem_cons_self res rs, geFour_imp_getD hb, hcnt⟩
      · cases hmsg

theorem backFileTimeoutHandler_success {st : LoopState} {res : ApiResponse}
    (hlast : ∀ l, st.lastApiResponse = some l →
      (l.status ≠ some "success" ∧ l.status ≠ some "already_completed") ∧
        optStrTruthy l.encrypted_card_data = false)
    (h : backFileTimeoutHandler "back" st = .success res) :
    st.lastApiResponse = some res ∧ 4 ≤ (bufBack res).getD 0 ∧
      requiredBackSideFeatures ≤ countBackSideFeatures res := by
  rw [backFileTimeoutHandler] at h
  split at h
  · cases h
  · cases hl : st.lastApiResponse with
    | none => rw [hl] at h; cases h
    | some l =>
      rw [hl] at h
      obtain ⟨⟨hs1, hs2⟩, hleg⟩ := hlast l hl
      simp only [beq_eq_false_iff_ne.mpr hs1, beq_eq_false_iff_ne.mpr hs2, hleg,
        show (("back" : String) == "back") = true from rfl,
        Bool.true_and, Bool.false_and, Bool.false_eq_true, if_false, if_true,
        Bool.false_or, Bool.or_false, Bool.and_false, Bool.and_true, Bool.or_self] at h
      split_ifs at h
      all_goals try cases h
      all_goals (rename_i hc
                 exact ⟨rfl, by simpa using hc⟩)

theorem backFileMaxFramesFallback_success {st : LoopState} {res : ApiResponse}
    (hlast : ∀ l, st.lastApiResponse = some l →
      (l.status ≠ some "success" ∧ l.status ≠ some "already_completed") ∧
        optStrTruthy l.encrypted_card_data = false)
    (h : backFileMaxFramesFallback "back" st = .success res) :
    st.lastApiResponse = some res ∧ 4 ≤ (bufBack res).getD 0 ∧
      requiredBackSideFeatures ≤ countBackSideFeatures res := by
  rw [backFileMaxFramesFallback] at h
  cases hl : st.lastApiResponse with
  | none => rw [hl] at h; cases h
  | some l =>
    rw [hl] at h
    obtain ⟨⟨hs1, hs2⟩, hleg⟩ := hlast l hl
    simp only [beq_eq_false_iff_ne.mpr hs1, beq_eq_false_iff_ne.mpr hs2, hleg,
      show (("back" : String) == "back") = true from rfl,
      Bool.true_and, Bool.false_and, Bool.false_eq_true, if_false, if_true,
      Bool.false_or, Bool.or_false, Bool.and_false, Bool.and_true, Bool.or_self] at h
    split_ifs at h
    all_goals try cases h
    all_goals (rename_i hc
               exact ⟨rfl, by simpa using hc⟩)

theorem backRunTimeoutPath_success (resps : List ApiResponse)
    (hnt : noTerminalStatus resps) (hnl : noLegacyEncrypted resps)
    (res : ApiResponse) (h : backRunTimeoutPath resps = .success res) :
    res ∈ resps ∧ 4 ≤ (bufBack res).getD 0 ∧
      requiredBackSideFeatures ≤ countBackSideFeatures res := by
  have htnt : ∀ r ∈ resps.take maxFrames,
      r.status ≠ some "success" ∧ r.status ≠ some "already_completed" :=
    fun r hr => hnt r (List.take_subset _ _ hr)
  have htnl : ∀ r ∈ resps.take maxFrames, optStrTruthy r.encrypted_card_data = false :=
    fun r hr => hnl r (List.take_subset _ _ hr)
  rw [backRunTimeoutPath] at h
  cases hrun : runPollingWith (processBackFileResp "back") initLoopState
      (resps.take maxFrames) with
  | mk fst snd =>
    rw [hrun] at h
    cases fst with
    | some o =>
      replace h : o = .success res := h
      subst h
      obtain ⟨hmem, hrest⟩ := backPolling_success (resps.take maxFrames) htnt htnl
        initLoopState snd res hrun
      exact ⟨List.take_subset _ _ hmem, hrest⟩
    | none =>
      replace h : backFileTimeoutHandler "back" snd = .success res := h
      have hlastmem : ∀ l, snd.lastApiResponse = some l → l ∈ resps.take maxFrames := by
        intro l hl
        rcases runPollingWith_none_last _
            (fun _ _ _ hx => processBackFileResp_next_last hx) _ _ _ hrun with
          h0 | ⟨r, hr, heq⟩
        · rw [hl] at h0
          simp [initLoopState] at h0
        · rw [hl] at heq
          have hlr : l = r := by injection heq
          subst hlr
          exact hr
      obtain ⟨hl, hrest⟩ := backFileTimeoutHandler_success
        (fun l hl => ⟨htnt l (hlastmem l hl), htnl l (hlastmem l hl)⟩) h
      exact ⟨List.take_subset _ _ (hlastmem res hl), hrest⟩

theorem backRunMaxFramesPath_success (resps : List ApiResponse)
    (hnt : noTerminalStatus resps) (hnl : noLegacyEncrypted resps)
    (res : ApiResponse) (h : backRunMaxFramesPath resps = .success res) :
    res ∈ resps ∧ 4 ≤ (bufBack res).getD 0 ∧
      requiredBackSideFeatures ≤ countBackSideFeatures res := by
  have htnt : ∀ r ∈ resps.take maxFrames,
      r.status ≠ some "success" ∧ r.status ≠ some "already_completed" :=
    fun r hr => hnt r (List.take_subset _ _ hr)
  have htnl : ∀ r ∈ resps.take maxFrames, optStrTruthy r.encrypted_card_data = false :=
    fun r hr => hnl r (List.take_subset _ _ hr)
  rw [backRunMaxFramesPath] at h
  cases hrun : runPollingWith (processBackFileResp "back") initLoopState
      (resps.take maxFrames) with
  | mk fst snd =>
    rw [hrun] at h
    cases fst with
    | some o =>
      replace h : o = .success res := h
      subst h
      obtain ⟨hmem, hrest⟩ := backPolling_success (resps.take maxFrames) htnt htnl
        initLoopState snd res hrun
      exact ⟨List.take_subset _ _ hmem, hrest⟩
    | none =>
      replace h : backFileMaxFramesFallback "back" snd = .success res := h
      have hlastmem : ∀ l, snd.lastApiResponse = some l → l ∈ resps.take maxFrames := by
        intro l hl
        rcases runPollingWith_none_last _
            (fun _ _ _ hx => processBackFileResp_next_last hx) _ _ _ hrun with
          h0 | ⟨r, hr, heq⟩
        · rw [hl] at h0
          simp [initLoopState] at h0
        · rw [hl] at heq
          have hlr : l = r := by injection heq
          subst hlr
          exact hr
      obtain ⟨hl, hrest⟩ := backFileMaxFramesFallback_success
        (fun l hl => ⟨htnt l (hlastmem l hl), htnl l (hlastmem l hl)⟩) h
      exact ⟨List.take_subset _ _ (hlastmem res hl), hrest⟩

/-! ### Front-side loop lemmas -/

set_option maxHeartbeats 1000000 in
theorem processFrontFileResp_next_last {img : String} {st : LoopState} {r : ApiResponse}
    {st' : LoopState}
    (h : processFrontFileResp "front" img st r = .next st') :
    st'.lastApiResponse = st.lastApiResponse ∨ st'.lastApiResponse = some r := by
  simp only [processFrontFileResp,
    show (("front" : String) == "validation") = false from rfl,
    show (("front" : String) == "front") = true from rfl,
    show (("front" : String) == "back") = false from rfl,
    show (("front" : String) != "front") = false from rfl,
    show (("front" : String) != "back") = true from rfl,
    Bool.true_and, Bool.false_and, Bool.false_eq_true, if_false, if_true,
    Bool.false_or, Bool.or_false, Bool.and_false, Bool.and_true, Bool.or_self] at h
  split_ifs at h
  all_goals try cases h
  all_goals first
    | exact Or.inr rfl
    | exact Or.inl rfl

set_option maxHeartbeats 1000000 in
theorem processFrontFileResp_terminal {img : String} {st : LoopState} {r : ApiResponse}
    {o : RunOutcome}
    (hnt1 : r.status ≠ some "success") (hnt2 : r.status ≠ some "already_completed")
    (hnl : optStrTruthy r.encrypted_card_data = false)
    (h : processFrontFileResp "front" img st r = .terminal o) :
    (o = .success r ∧ geFour (bufFront r) = true ∧ r.chip = some true ∧
      r.bank_logo = some true) ∨
    (∃ msg, o = .failure msg) := by
  simp only [processFrontFileResp,
    show (("front" : String) == "validation") = false from rfl,
    show (("front" : String) == "front") = true from rfl,
    show (("front" : String) == "back") = false from rfl,
    show (("front" : String) != "front") = false from rfl,
    show (("front" : String) != "back") = true from rfl,
    beq_eq_false_iff_ne.mpr hnt1, beq_eq_false_iff_ne.mpr hnt2, hnl,
    Bool.true_and, Bool.false_and, Bool.false_eq_true, if_false, if_true,
    Bool.false_or, Bool.or_false, Bool.and_false, Bool.and_true, Bool.or_self] at h
  split_ifs at h
  all_goals try cases h
  all_goals first
    | exact Or.inr ⟨_, rfl⟩
    | (rename_i hc
       rcases Bool.and_eq_true_iff.mp hc with ⟨hc1, hb⟩
       rcases Bool.and_eq_true_iff.mp hc1 with ⟨hg, hchip⟩
       exact Or.inl ⟨rfl, hg, beq_iff_eq.mp hchip, beq_iff_eq.mp hb⟩)

theorem frontPolling_success (img : String) :
    ∀ (resps : List ApiResponse),
      (∀ r ∈ resps, r.status ≠ some "success" ∧ r.status ≠ some "already_completed") →
      (∀ r ∈ resps, optStrTruthy r.encrypted_card_data = false) →
      ∀ (st st' : LoopState) (res : ApiResponse),
        runPollingWith (processFrontFileResp "front" img) st resps =
          (some (.success res), st') →
        res ∈ resps ∧ 4 ≤ (bufFront res).getD 0 ∧ res.chip = some true ∧
          res.bank_logo = some true := by
  intro resps
  induction resps with
  | nil =>
    intro _ _ st st' res h
    rw [runPollingWith] at h
    cases h
  | cons r rs ih =>
    intro hnt hnl st st' res h
    rw [runPollingWith] at h
    cases hp : processFrontFileResp "front" img st r with
    | next st1 =>
      rw [hp] at h
      obtain ⟨hmem, hrest⟩ := ih (fun x hx => hnt x (List.mem_cons_of_mem r hx))
        (fun x hx => hnl x (List.mem_cons_of_mem r hx)) st1 st' res h
      exact ⟨List.mem_cons_of_mem r hmem, hrest⟩
    | terminal o =>
      rw [hp] at h
      have ho : o = .success res := by
        have := congrArg Prod.fst h
        simpa using this
      subst ho
      rcases processFrontFileResp_terminal (hnt r (List.mem_cons_self r rs)).1
        (hnt r (List.mem_cons_self r rs)).2 (hnl r (List.mem_cons_self r rs)) hp with
        ⟨hres, hb, hchip, hbank⟩ | ⟨msg, hmsg⟩
      · have hrr : res = r := by injection hres
        subst hrr
        exact ⟨List.mem_cons_self res rs, geFour_imp_getD hb, hchip, hbank⟩
      · cases hmsg

theorem frontFileTimeoutHandler_success {st : LoopState} {res : ApiResponse}
    (hlast : ∀ l, st.lastApiResponse = some l →
      (l.status ≠ some "success" ∧ l.status ≠ some "already_completed") ∧
        optStrTruthy l.encrypted_card_data = false)
    (h : frontFileTimeoutHandler "front" st = .success res) :
    st.lastApiResponse = some res ∧ 4 ≤ (bufFront res).getD 0 ∧
      res.chip = some true ∧ res.bank_logo = some true := by
  rw [frontFileTimeoutHandler] at h
  split at h
  · cases h
  · cases hl : st.lastApiResponse with
    | none => rw [hl] at h; cases h
    | some l =>
      rw [hl] at h
      obtain ⟨⟨hs1, hs2⟩, hleg⟩ := hlast l hl
      simp only [beq_eq_false_iff_ne.mpr hs1, beq_eq_false_iff_ne.mpr hs2, hleg,
        show (("front" : String) == "back") = false from rfl,
        show (("front" : String) == "front") = true from rfl,
        Bool.true_and, Bool.false_and, Bool.false_eq_true, if_false, if_true,
        Bool.false_or, Bool.or_false, Bool.and_false, Bool.and_true, Bool.or_self] at h
      split_ifs at h
      all_goals try cases h
      all_goals (rename_i hc
                 exact ⟨rfl, by simpa [and_assoc] using hc⟩)

theorem frontFileMaxFramesFallback_success {st : LoopState} {res : ApiResponse}
    (h : frontFileMaxFramesFallback "front" st = .success res) :
    st.lastApiResponse = some res ∧ 4 ≤ (bufFront res).getD 0 ∧
      res.chip = some true ∧ res.bank_logo = some true := by
  rw [frontFileMaxFramesFallback] at h
  cases hl : st.lastApiResponse with
  | none => rw [hl] at h; cases h
  | some l =>
    rw [hl] at h
    simp only [show (("front" : String) == "back") = false from rfl,
      show (("front" : String) == "front") = true from rfl,
      Bool.true_and, Bool.false_and, Bool.false_eq_true, if_false, if_true,
      Bool.false_or, Bool.or_false, Bool.and_false, Bool.and_true, Bool.or_self] at h
    split_ifs at h
    all_goals try cases h
    all_goals (rename_i hc
               exact ⟨rfl, by simpa [and_assoc] using hc⟩)

theorem frontRunTimeoutPath_success (img : String) (resps : List ApiResponse)
    (hnt : noTerminalStatus resps) (hnl : noLegacyEncrypted resps)
    (res : ApiResponse) (h : frontRunTimeoutPath img resps = .success res) :
    res ∈ resps ∧ 4 ≤ (bufFront res).getD 0 ∧ res.chip = some true ∧
      res.bank_logo = some true := by
  have htnt : ∀ r ∈ resps.take maxFrames,
      r.status ≠ some "success" ∧ r.status ≠ some "already_completed" :=
    fun r hr => hnt r (List.take_subset _ _ hr)
  have htnl : ∀ r ∈ resps.take maxFrames, optStrTruthy r.encrypted_card_data = false :=
    fun r hr => hnl r (List.take_subset _ _ hr)
  rw [frontRunTimeoutPath] at h
  cases hrun : runPollingWith (processFrontFileResp "front" img) initLoopState
      (resps.take maxFrames) with
  | mk fst snd =>
    rw [hrun] at h
    cases fst with
    | some o =>
      replace h : o = .success res := h
      subst h
      obtain ⟨hmem, hrest⟩ := frontPolling_success img (resps.take maxFrames) htnt htnl
        initLoopState snd res hrun
      exact ⟨List.take_subset _ _ hmem, hrest⟩
    | none =>
      replace h : frontFileTimeoutHandler "front" snd = .success res := h
      have hlastmem : ∀ l, snd.lastApiResponse = some l → l ∈ resps.take maxFrames := by
        intro l hl
        rcases runPollingWith_none_last _
            (fun _ _ _ hx => processFrontFileResp_next_last hx) _ _ _ hrun with
          h0 | ⟨r, hr, heq⟩
        · rw [hl] at h0
          simp [initLoopState] at h0
        · rw [hl] at heq
          have hlr : l = r := by injection heq
          subst hlr
          exact hr
      obtain ⟨hl, hrest⟩ := frontFileTimeoutHandler_success
        (fun l hl => ⟨htnt l (hlastmem l hl), htnl l (hlastmem l hl)⟩) h
      exact ⟨List.take_subset _ _ (hlastmem res hl), hrest⟩

theorem frontRunMaxFramesPath_success (img : String) (resps : List ApiResponse)
    (hnt : noTerminalStatus resps) (hnl : noLegacyEncrypted resps)
    (res : ApiResponse) (h : frontRunMaxFramesPath img resps = .success res) :
    res ∈ resps ∧ 4 ≤ (bufFront res).getD 0 ∧ res.chip = some true ∧
      res.bank_logo = some true := by
  have htnt : ∀ r ∈ resps.take maxFrames,
      r.status ≠ some "success" ∧ r.status ≠ some "already_completed" :=
    fun r hr => hnt r (List.take_subset _ _ hr)
  have htnl : ∀ r ∈ resps.take maxFrames, optStrTruthy r.encrypted_card_data = false :=
    fun r hr => hnl r (List.take_subset _ _ hr)
  rw [frontRunMaxFramesPath] at h
  cases hrun : runPollingWith (processFrontFileResp "front" img) initLoopState
      (resps.take maxFrames) with
  | mk fst snd =>
    rw [hrun] at h
    cases fst with
    | some o =>
      replace h : o = .success res := h
      subst h
      obtain ⟨hmem, hrest⟩ := frontPolling_success img (resps.take maxFrames) htnt htnl
        initLoopState snd res hrun
      exact ⟨List.take_subset _ _ hmem, hrest⟩
    | none =>
      replace h : frontFileMaxFramesFallback "front" snd = .success res := h
      have hlastmem : ∀ l, snd.lastApiResponse = some l → l ∈ resps.take maxFrames := by
        intro l hl
        rcases runPollingWith_none_last _
            (fun _ _ _ hx => processFrontFileResp_next_last hx) _ _ _ hrun with
          h0 | ⟨r, hr, heq⟩
        · rw [hl] at h0
          simp [initLoopState] at h0
        · rw [hl] at heq
          have hlr : l = r := by injection heq
          subst hlr
          exact hr
      obtain ⟨hl, hrest⟩ := frontFileMaxFramesFallback_success h
      exact ⟨List.take_subset _ _ (hlastmem res hl), hrest⟩

/-! ### Association-list and JSON-object lemmas -/

theorem mapGet_mem {α : Type} {m : List (String × α)} {k : String} {v : α}
    (h : mapGet m k = some v) : (k, v) ∈ m := by
  rw [mapGet] at h
  rcases Option.map_eq_some'.mp h with ⟨p, hfind, hv⟩
  have hmem := List.mem_of_find?_eq_some hfind
  have hpred := List.find?_some hfind
  have hk : p.1 = k := by simpa using hpred
  have hpe : p = (k, v) := by
    cases p
    simp only at hk hv
    rw [hk, hv]
  rwa [hpe] at hmem

theorem mem_mapSet {α : Type} {m : List (String × α)} {k k' : String} {v v' : α}
    (h : (k', v') ∈ mapSet m k v) : (k' = k ∧ v' = v) ∨ (k', v') ∈ m := by
  induction m with
  | nil =>
    rw [mapSet] at h
    exact Or.inl (by simpa using h)
  | cons p ps ih =>
    rw [mapSet] at h
    split at h
    · rcases List.mem_cons.mp h with h | h
      · exact Or.inl (by simpa using h)
      · exact Or.inr (List.mem_cons_of_mem p h)
    · rcases List.mem_cons.mp h with h | h
      · exact Or.inr (by rw [h]; exact List.mem_cons_self p ps)
      · rcases ih h with h | h
        · exact Or.inl h
        · exact Or.inr (List.mem_cons_of_mem p h)

theorem mapGet_cons {α : Type} (p : String × α) (ps : List (String × α)) (k : String) :
    mapGet (p :: ps) k = if (p.1 == k) = true then some p.2 else mapGet ps k := by
  rw [mapGet, List.find?_cons]
  by_cases h : (p.1 == k) = true
  · rw [if_pos h, h]
    rfl
  · rw [if_neg h]
    have hf : (p.1 == k) = false := by simpa using h
    rw [hf]
    rfl

theorem mapGet_mapSet_self {α : Type} (m : List (String × α)) (k : String) (v : α) :
    mapGet (mapSet m k v) k = some v := by
  induction m with
  | nil =>
    rw [mapSet, mapGet]
    simp
  | cons p ps ih =>
    rw [mapSet]
    split
    · rw [mapGet_cons, if_pos (by simp)]
    · rename_i hpk
      rw [mapGet_cons, if_neg hpk]
      exact ih

theorem mapGet_mapSet_ne {α : Type} (m : List (String × α)) {k k' : String} (v : α)
    (hne : k' ≠ k) : mapGet (mapSet m k v) k' = mapGet m k' := by
  have hkk : ¬ ((k == k') = true) := by
    simp only [beq_iff_eq]
    exact fun h => hne (Eq.symm h)
  induction m with
  | nil =>
    rw [mapSet, mapGet_cons, if_neg hkk]
  | cons p ps ih =>
    rw [mapSet]
    split
    · rename_i hpk
      have hp1 : p.1 = k := by simpa using hpk
      rw [mapGet_cons, mapGet_cons, if_neg hkk, if_neg (by rw [hp1]; exact hkk)]
    · by_cases hq : (p.1 == k') = true
      · rw [mapGet_cons, mapGet_cons, if_pos hq, if_pos hq]
      · rw [mapGet_cons, mapGet_cons, if_neg hq, if_neg hq]
        exact ih

theorem mapGet_filter_keep {α : Type} {m : List (String × α)} {k : String} {v : α}
    {p : String × α → Bool}
    (h : mapGet m k = some v) (hp : p (k, v) = true) :
    mapGet (m.filter p) k = some v := by
  induction m with
  | nil => simp [mapGet] at h
  | cons q qs ih =>
    rw [mapGet_cons] at h
    by_cases hq : (q.1 == k) = true
    · rw [if_pos hq] at h
      have hv : q.2 = v := by injection h
      have hq1 : q.1 = k := by simpa using hq
      have hqe : q = (k, v) := by
        cases q
        simp only at hq1 hv
        rw [hq1, hv]
      rw [hqe, List.filter_cons, if_pos hp, mapGet_cons, if_pos (by simp)]
    · rw [if_neg hq] at h
      rw [List.filter_cons]
      split
      · rw [mapGet_cons, if_neg hq]
        exact ih h
      · exact ih h

theorem mapGet_eq_none_of_notin {α : Type} {m : List (String × α)} {k : String}
    (h : k ∉ m.map Prod.fst) : mapGet m k = none := by
  rw [mapGet, List.find?_eq_none.mpr]
  · rfl
  · intro p hp hpk
    exact h (List.mem_map.mpr ⟨p, hp, by simpa using hpk⟩)

theorem objInsertAll_cons (o : JObj) (q : String × JVal) (qs : JObj) :
    objInsertAll o (q :: qs) = objInsertAll (mapSet o q.1 q.2) qs := rfl

theorem objGet_objInsertAll_notin {o : JObj} {kvs : JObj} {k : String}
    (h : k ∉ kvs.map Prod.fst) : objGet (objInsertAll o kvs) k = objGet o k := by
  induction kvs generalizing o with
  | nil => rfl
  | cons q qs ih =>
    rw [objInsertAll_cons]
    have hk1 : k ∉ qs.map Prod.fst := fun hm => h (by simp [hm])
    have hk2 : k ≠ q.1 := fun he => h (by simp [he])
    rw [ih hk1]
    exact mapGet_mapSet_ne o q.2 hk2

theorem objGet_objInsertAll_mem {o : JObj} {kvs : JObj} {k : String} {v : JVal}
    (hnodup : (kvs.map Prod.fst).Nodup) (h : (k, v) ∈ kvs) :
    objGet (objInsertAll o kvs) k = some v := by
  induction kvs generalizing o with
  | nil => cases h
  | cons q qs ih =>
    rw [objInsertAll_cons]
    rw [List.map_cons, List.nodup_cons] at hnodup
    rcases List.mem_cons.mp h with h | h
    · have hk : q.1 = k := by rw [← h]
      have hv : q.2 = v := by rw [← h]
      have hnotin : k ∉ qs.map Prod.fst := hk ▸ hnodup.1
      rw [hk, hv, objGet_objInsertAll_notin hnotin]
      exact mapGet_mapSet_self o k v
    · exact ih hnodup.2 h

/-! ### Result-gate step lemmas -/

theorem getBySession_fst (s : GateState) (sid : Option String) :
    (getBySession s sid).1 = s := by
  rw [getBySession]
  split
  · split <;> rfl
  · split <;> rfl

theorem getBySession_released_mem {s : GateState} {sid : Option String} {rid : String}
    {r : StoredResult}
    (h : (getBySession s sid).2 = .getReleased rid r) : (rid, r) ∈ s.verified := by
  rw [getBySession] at h
  split at h
  · rename_i pr hf
    split at h
    · injection h with h1 h2
      rw [← h1, ← h2]
      exact List.mem_of_find?_eq_some hf
    · cases h
  · split at h <;> cases h

theorem getBySession_resp_shape (s : GateState) (a : Option String) :
    (getBySession s a).2 = .getPendingSession ∨ (getBySession s a).2 = .getUnverified ∨
    (getBySession s a).2 = .getNotFound ∨
    ∃ rid r, (getBySession s a).2 = .getReleased rid r := by
  rw [getBySession]
  split
  · split
    · exact Or.inr (Or.inr (Or.inr ⟨_, _, rfl⟩))
    · exact Or.inr (Or.inl rfl)
  · split
    · exact Or.inl rfl
    · exact Or.inr (Or.inr (Or.inl rfl))

theorem gateStep_released_mem {s : GateState} {op : GateOp} {rid : String} {r : StoredResult}
    (h : (gateStep s op).2 = .getReleased rid r) : (rid, r) ∈ s.verified := by
  cases op with
  | post sessionId scanData merchantId now =>
    cases sessionId with
    | none => cases scanData <;> simp [gateStep] at h
    | some sid =>
      cases scanData with
      | none => simp [gateStep] at h
      | some sd =>
        simp only [gateStep] at h
        split at h <;> cases h
  | put resultId verificationId now =>
    cases resultId with
    | none => cases verificationId <;> simp [gateStep] at h
    | some rid' =>
      cases verificationId with
      | none => simp [gateStep] at h
      | some vid =>
        simp only [gateStep] at h
        split at h
        · cases h
        · cases hg : mapGet s.pending rid' with
          | none => rw [hg] at h; cases h
          | some pr => rw [hg] at h; cases h
  | get sessionId resultId =>
    simp only [gateStep] at h
    split at h
    · cases h
    · cases resultId with
      | none => exact getBySession_released_mem h
      | some rid' =>
        dsimp only at h
        split at h
        · split at h
          · cases h
          · rename_i result hg
            split at h
            · injection h with h1 h2
              rw [← h1, ← h2]
              exact mapGet_mem hg
            · cases h
        · exact getBySession_released_mem h
  | del resultId =>
    cases resultId with
    | none => simp [gateStep] at h
    | some rid' =>
      simp only [gateStep] at h
      split at h
      · cases h
      · split at h <;> cases h
  | sweep now => simp [gateStep] at h

theorem gateStep_verified_mem {s : GateState} {op : GateOp} {rid : String} {r : StoredResult}
    (h : (rid, r) ∈ (gateStep s op).1.verified) :
    (∃ r0, (rid, r0) ∈ s.verified) ∨
      ∃ vid now, op = .put (some rid) (some vid) now ∧ (gateStep s op).2 = .putOk := by
  cases op with
  | post sessionId scanData merchantId now =>
    cases sessionId with
    | none => cases scanData <;> (simp only [gateStep] at h; exact Or.inl ⟨r, h⟩)
    | some sid =>
      cases scanData with
      | none =>
        simp only [gateStep] at h
        exact Or.inl ⟨r, h⟩
      | some sd =>
        simp only [gateStep] at h
        split at h
        · exact Or.inl ⟨r, h⟩
        · exact Or.inl ⟨r, List.mem_of_mem_filter h⟩
  | put resultId verificationId now =>
    cases resultId with
    | none => cases verificationId <;> (simp only [gateStep] at h; exact Or.inl ⟨r, h⟩)
    | some rid' =>
      cases verificationId with
      | none =>
        simp only [gateStep] at h
        exact Or.inl ⟨r, h⟩
      | some vid =>
        simp only [gateStep] at h
        split at h
        · exact Or.inl ⟨r, h⟩
        · rename_i hcond
          cases hg : mapGet s.pending rid' with
          | none =>
            rw [hg] at h
            exact Or.inl ⟨r, h⟩
          | some pr =>
            rw [hg] at h
            rcases mem_mapSet h with ⟨hk, _⟩ | hmem
            · subst hk
              refine Or.inr ⟨vid, now, rfl, ?_⟩
              simp only [gateStep]
              rw [if_neg hcond, hg]
            · exact Or.inl ⟨r, hmem⟩
  | get sessionId resultId =>
    left
    refine ⟨r, ?_⟩
    have hfst : (gateStep s (GateOp.get sessionId resultId)).1 = s := by
      simp only [gateStep]
      split
      · rfl
      · cases resultId with
        | none => exact getBySession_fst s sessionId
        | some rid' =>
          dsimp only
          split
          · split
            · rfl
            · split <;> rfl
          · exact getBySession_fst s sessionId
    rwa [hfst] at h
  | del resultId =>
    cases resultId with
    | none =>
      simp only [gateStep] at h
      exact Or.inl ⟨r, h⟩
    | some rid' =>
      simp only [gateStep] at h
      split at h
      · exact Or.inl ⟨r, h⟩
      · split at h <;> exact Or.inl ⟨r, List.mem_of_mem_filter h⟩
  | sweep now =>
    simp only [gateStep] at h
    exact Or.inl ⟨r, List.mem_of_mem_filter h⟩

theorem gateOutputs_released_has_put :
    ∀ (ops : List GateOp) (s0 : GateState) (i : Nat) (rid : String) (r : StoredResult),
      (gateOutputs s0 ops).get? i = some (.getReleased rid r) →
      (∃ r0, (rid, r0) ∈ s0.verified) ∨
        ∃ j, j < i ∧ ∃ vid now, ops.get? j = some (.put (some rid) (some vid) now) ∧
          (gateOutputs s0 ops).get? j = some .putOk := by
  intro ops
  induction ops with
  | nil =>
    intro s0 i rid r h
    simp [gateOutputs] at h
  | cons op ops ih =>
    intro s0 i rid r h
    rw [gateOutputs] at h
    cases i with
    | zero =>
      rw [List.get?_cons_zero] at h
      have h2 : (gateStep s0 op).2 = .getReleased rid r := by injection h
      exact Or.inl ⟨r, gateStep_released_mem h2⟩
    | succ k =>
      rw [List.get?_cons_succ] at h
      rcases ih (gateStep s0 op).1 k rid r h with ⟨r0, hmem⟩ | ⟨j, hj, vid, now, hop, hout⟩
      · rcases gateStep_verified_mem hmem with ⟨r1, hmem1⟩ | ⟨vid, now, hopeq, hputok⟩
        · exact Or.inl ⟨r1, hmem1⟩
        · refine Or.inr ⟨0, Nat.succ_pos k, vid, now, ?_, ?_⟩
          · rw [List.get?_cons_zero, hopeq]
          · rw [gateOutputs, List.get?_cons_zero, hputok]
      · refine Or.inr ⟨j + 1, Nat.succ_lt_succ hj, vid, now, ?_, ?_⟩
        · rw [List.get?_cons_succ]
          exact hop
        · rw [gateOutputs, List.get?_cons_succ]
          exact hout

theorem gateStep_get_resp_shape (s : GateState) (a b : Option String) :
    (gateStep s (GateOp.get a b)).2 =
        GateResp.badRequest "sessionId or resultId is required" ∨
    (gateStep s (GateOp.get a b)).2 = GateResp.getNotFound ∨
    (gateStep s (GateOp.get a b)).2 = GateResp.getPendingSession ∨
    (gateStep s (GateOp.get a b)).2 = GateResp.getUnverified ∨
    ∃ rid r, (gateStep s (GateOp.get a b)).2 = GateResp.getReleased rid r := by
  simp only [gateStep]
  split
  · exact Or.inl rfl
  · cases b with
    | none =>
      dsimp only
      rcases getBySession_resp_shape s a with h | h | h | ⟨rid, r, h⟩
      · exact Or.inr (Or.inr (Or.inl h))
      · exact Or.inr (Or.inr (Or.inr (Or.inl h)))
      · exact Or.inr (Or.inl h)
      · exact Or.inr (Or.inr (Or.inr (Or.inr ⟨rid, r, h⟩)))
    | some rid =>
      dsimp only
      split
      · split
        · exact Or.inr (Or.inl rfl)
        · split
          · exact Or.inr (Or.inr (Or.inr (Or.inr ⟨_, _, rfl⟩)))
          · exact Or.inr (Or.inr (Or.inr (Or.inl rfl)))
      · rcases getBySession_resp_shape s a with h | h | h | ⟨rid2, r, h⟩
        · exact Or.inr (Or.inr (Or.inl h))
        · exact Or.inr (Or.inr (Or.inr (Or.inl h)))
        · exact Or.inr (Or.inl h)
        · exact Or.inr (Or.inr (Or.inr (Or.inr ⟨rid2, r, h⟩)))

/-! ## Claims -/

/-- C6: for every back-side camera candidate set in which at least one
candidate passes the empirical torch probe, the negotiator returns the
highest-scored candidate among those that verify (the candidate list being
built by facing classification, telephoto/ultra-wide exclusion and
descending-score ordering), and never returns an unverified candidate with a
higher score. -/
theorem C6_back_negotiator_selects_best_verified (testMode : Bool)
    (torchOk : String → Bool) (trackLabelOf : String → Option String)
    (devices : List MediaDevice)
    (hex : ∃ c ∈ backCandidates devices, torchVerifiable torchOk c = true) :
    ∃ cam ∈ backCandidates devices,
      torchVerifiable torchOk cam = true ∧
      (findBestCameraForScanBack testMode torchOk trackLabelOf devices).deviceId = cam.deviceId ∧
      (findBestCameraForScanBack testMode torchOk trackLabelOf devices).hasTorch = true ∧
      (findBestCameraForScanBack testMode torchOk trackLabelOf devices).error = none ∧
      ∀ c ∈ backCandidates devices,
        torchVerifiable torchOk c = true → camScore c ≤ camScore cam := by
  obtain ⟨cam, hfind⟩ := findTorchCapable_isSome hex
  obtain ⟨hmem, hcv, hmax⟩ := findTorchCapable_spec (backCandidates_pairwise devices) hfind
  have hdev : devices.isEmpty = false := by
    cases devices with
    | nil =>
      rw [backCandidates_of_devices_nil] at hex
      simp at hex
    | cons d ds => rfl
  refine ⟨cam, hmem, hcv, ?_⟩
  have hsel : findBestCameraForScanBack testMode torchOk trackLabelOf devices =
      selectBackCamera testMode torchOk trackLabelOf (backCandidates devices) := by
    rw [findBestCameraForScanBack]
    simp [hdev]
  rcases hcands : backCandidates devices with _ | ⟨c, rest⟩
  · rw [hcands] at hmem; cases hmem
  · rw [hcands] at hsel hfind
    have hsel2 : selectBackCamera testMode torchOk trackLabelOf (c :: rest) =
        ⟨cam.deviceId, true, cam.facing,
         firstTruthyStr [cam.label, trackLabelOf (cam.deviceId.getD "")] "Unknown",
         none, false⟩ := by
      simp only [selectBackCamera, hfind]
    rw [hsel, hsel2]
    exact ⟨rfl, rfl, rfl, by rw [← hcands]; exact hmax⟩

/-- C6 witness: with telephoto, main and dual-wide back cameras where only
the main camera verifies torch, the negotiator settles on a verified
candidate of maximal score among verified ones. -/
theorem C6_back_negotiator_selects_best_verified_witness :
    ∃ cam ∈ backCandidates [devTeleA, devMainA, devWideA],
      torchVerifiable (fun id => id == "id-main") cam = true ∧
      (findBestCameraForScanBack false (fun id => id == "id-main") (fun _ => none)
        [devTeleA, devMainA, devWideA]).deviceId = cam.deviceId ∧
      (findBestCameraForScanBack false (fun id => id == "id-main") (fun _ => none)
        [devTeleA, devMainA, devWideA]).hasTorch = true ∧
      (findBestCameraForScanBack false (fun id => id == "id-main") (fun _ => none)
        [devTeleA, devMainA, devWideA]).error = none ∧
      ∀ c ∈ backCandidates [devTeleA, devMainA, devWideA],
        torchVerifiable (fun id => id == "id-main") c = true →
          camScore c ≤ camScore cam :=
  C6_back_negotiator_selects_best_verified false (fun id => id == "id-main")
    (fun _ => none) [devTeleA, devMainA, devWideA] (by decide)

/-- C7: for every back-side negotiation in which no candidate passes the
torch probe (and a candidate exists), the negotiator fails with
`NO_TORCH_CAMERA` when the test/bypass flag is off, and with the flag on it
returns the top-scored candidate with `hasTorch = false`; the source sets
`TEST_MODE` to `true`. -/
theorem C7_no_torch_outcome (torchOk : String → Bool)
    (trackLabelOf : String → Option String) (devices : List MediaDevice)
    (c : ClassifiedCam) (rest : List ClassifiedCam)
    (hcands : backCandidates devices = c :: rest)
    (hnone : ∀ c' ∈ backCandidates devices, torchVerifiable torchOk c' = false) :
    findBestCameraForScanBack false torchOk trackLabelOf devices =
      ⟨none, false, "back", "No torch camera", some "NO_TORCH_CAMERA", false⟩ ∧
    findBestCameraForScanBack true torchOk trackLabelOf devices =
      ⟨(if optStrTruthy c.deviceId then c.deviceId else none), false, c.facing,
        firstTruthyStr [c.label] "Test Camera", none, true⟩ ∧
    (findBestCameraForScanBack true torchOk trackLabelOf devices).hasTorch = false ∧
    (∀ c' ∈ backCandidates devices, camScore c' ≤ camScore c) ∧
    TEST_MODE = true := by
  have hdev : devices.isEmpty = false := by
    cases devices with
    | nil => rw [backCandidates_of_devices_nil] at hcands; cases hcands
    | cons d ds => rfl
  have hfind : findTorchCapable torchOk (c :: rest) = none := by
    rw [← hcands]
    exact findTorchCapable_eq_none hnone
  have hpw := backCandidates_pairwise devices
  rw [hcands] at hpw
  rw [List.pairwise_cons] at hpw
  have hmax : ∀ c' ∈ backCandidates devices, camScore c' ≤ camScore c := by
    intro c' hc'
    rw [hcands] at hc'
    rcases List.mem_cons.mp hc' with rfl | hc'
    · exact le_refl _
    · exact hpw.1 c' hc'
  have hselF : findBestCameraForScanBack false torchOk trackLabelOf devices =
      selectBackCamera false torchOk trackLabelOf (c :: rest) := by
    rw [findBestCameraForScanBack]
    simp [hdev, hcands]
  have hselT : findBestCameraForScanBack true torchOk trackLabelOf devices =
      selectBackCamera true torchOk trackLabelOf (c :: rest) := by
    rw [findBestCameraForScanBack]
    simp [hdev, hcands]
  refine ⟨?_, ?_, ?_, hmax, rfl⟩
  · rw [hselF]
    simp [selectBackCamera, hfind]
  · rw [hselT]
    simp [selectBackCamera, hfind]
  · rw [hselT]
    simp [selectBackCamera, hfind]

/-- C7 witness: with the same three cameras and a probe that verifies none,
the negotiator errors with `NO_TORCH_CAMERA` when the flag is off and returns
the top-scored dual-wide candidate without torch when it is on. -/
theorem C7_no_torch_outcome_witness :
    findBestCameraForScanBack false (fun _ => false) (fun _ => none)
        [devTeleA, devMainA, devWideA] =
      ⟨none, false, "back", "No torch camera", some "NO_TORCH_CAMERA", false⟩ ∧
    findBestCameraForScanBack true (fun _ => false) (fun _ => none)
        [devTeleA, devMainA, devWideA] =
      ⟨(if optStrTruthy (classifyDevice devWideA).deviceId
          then (classifyDevice devWideA).deviceId else none), false,
        (classifyDevice devWideA).facing,
        firstTruthyStr [(classifyDevice devWideA).label] "Test Camera", none, true⟩ ∧
    (findBestCameraForScanBack true (fun _ => false) (fun _ => none)
        [devTeleA, devMainA, devWideA]).hasTorch = false ∧
    (∀ c' ∈ backCandidates [devTeleA, devMainA, devWideA],
        camScore c' ≤ camScore (classifyDevice devWideA)) ∧
    TEST_MODE = true :=
  C7_no_torch_outcome (fun _ => false) (fun _ => none) [devTeleA, devMainA, devWideA]
    (classifyDevice devWideA) [classifyDevice devMainA] (by decide) (by decide)

/-! ### Attempt accounting lemmas -/

theorem handleDetectionFailure_attemptCount (st : SessionState)
    (message operation merchantId : Option String) :
    (handleDetectionFailure st message operation merchantId).attemptCount =
      st.attemptCount + 1 := by
  rw [handleDetectionFailure]
  split <;> rfl

theorem runFailures_attemptCount (fs : List FailureEvent) :
    ∀ st : SessionState, (runFailures st fs).attemptCount = st.attemptCount + fs.length := by
  induction fs with
  | nil => intro st; simp [runFailures]
  | cons f fs ih =>
    intro st
    rw [runFailures, ih, handleDetectionFailure_attemptCount]
    simp [List.length_cons]
    omega

theorem handleDetectionFailure_below {st : SessionState}
    {message operation merchantId : Option String}
    (h : st.attemptCount + 1 < MAX_ATTEMPTS) :
    (handleDetectionFailure st message operation merchantId).maxAttemptsReached =
      st.maxAttemptsReached ∧
    (handleDetectionFailure st message operation merchantId).reports = st.reports ∧
    (handleDetectionFailure st message operation merchantId).sessionId = st.sessionId ∧
    (handleDetectionFailure st message operation merchantId).currentPhase = "error" := by
  rw [handleDetectionFailure]
  rw [if_neg (by omega)]
  exact ⟨rfl, rfl, rfl, rfl⟩

theorem runFailures_below (fs : List FailureEvent) :
    ∀ st : SessionState, st.attemptCount + fs.length < MAX_ATTEMPTS →
      (runFailures st fs).maxAttemptsReached = st.maxAttemptsReached ∧
      (runFailures st fs).reports = st.reports ∧
      (runFailures st fs).sessionId = st.sessionId ∧
      (fs = [] ∨ (runFailures st fs).currentPhase = "error") := by
  induction fs with
  | nil => intro st _; exact ⟨rfl, rfl, rfl, Or.inl rfl⟩
  | cons f fs ih =>
    intro st h
    rw [List.length_cons] at h
    have hstep := @handleDetectionFailure_below st f.message f.operation
      f.merchantId (by omega)
    rw [runFailures]
    have hcount := handleDetectionFailure_attemptCount st f.message f.operation f.merchantId
    have hrec := ih (handleDetectionFailure st f.message f.operation f.merchantId)
      (by rw [hcount]; omega)
    refine ⟨hrec.1.trans hstep.1, hrec.2.1.trans hstep.2.1, hrec.2.2.1.trans hstep.2.2.1, ?_⟩
    rcases hrec.2.2.2 with hnil | hphase
    · subst hnil
      exact Or.inr hstep.2.2.2
    · exact Or.inr hphase

theorem runFailures_append (st : SessionState) (xs ys : List FailureEvent) :
    runFailures st (xs ++ ys) = runFailures (runFailures st xs) ys := by
  induction xs generalizing st with
  | nil => rfl
  | cons x xs ih => rw [List.cons_append, runFailures, runFailures, ih]

theorem handleDetectionFailure_at_max {st : SessionState}
    {message operation merchantId : Option String}
    (h : MAX_ATTEMPTS ≤ st.attemptCount + 1)
    (hsid : (st.sessionId != "") = true) (hm : optStrTruthy merchantId = true) :
    handleDetectionFailure st message operation merchantId =
    { st with
      attemptCount := st.attemptCount + 1
      currentOperation := operation
      maxAttemptsReached := true
      errorMessage := "Maximum attempts reached. Please contact support for assistance."
      currentPhase := "max-attempts-reached"
      reports := st.reports ++
        [⟨"", st.sessionId, maxRetryReason message, operationTag operation,
          merchantId.getD ""⟩] } := by
  simp only [handleDetectionFailure]
  rw [if_pos h, hsid, hm]
  simp

theorem maxRetryReason_prefixed (message : Option String) :
    charsStartWith ("MAX RETRY REACHED".data) (maxRetryReason message).data = true := by
  match message with
  | none => decide
  | some m =>
    rw [maxRetryReason]
    split
    · show charsStartWith _ (("MAX RETRY REACHED: " ++ m).data) = true
      show charsStartWith _ ("MAX RETRY REACHED: ".data ++ m.data) = true
      rfl
    · decide

/-- C9: when the anti-spoof endpoint reports `is_screen: true` for the
back-side liveness frame, the attempt terminates with the fake-card error,
the flash is disabled (as the final action before the throw), and neither the
scan frame capture nor the classification polling loop is ever reached. -/
theorem C9_fake_card_short_circuit :
    ∀ (hasEnable hasOnImage : Bool),
      (backPreScan hasEnable true hasOnImage (.okJson (some true))).2 =
        some fakeCardBackMsg ∧
      CamEvent.flashOff ∈ (backPreScan hasEnable true hasOnImage (.okJson (some true))).1 ∧
      (backPreScan hasEnable true hasOnImage (.okJson (some true))).1.getLast? =
        some CamEvent.flashOff ∧
      CamEvent.captureScanFrame ∉
        (backPreScan hasEnable true hasOnImage (.okJson (some true))).1 ∧
      CamEvent.enterPollLoop ∉
        (backPreScan hasEnable true hasOnImage (.okJson (some true))).1 := by
  decide

/-- C10: each side-level failure increments `attemptCount` by exactly one
(after N consecutive failures it equals N); below `MAX_ATTEMPTS = 5` the
session stays in a retryable error state with its session id kept and no
report sent; the fifth failure flips the session — exactly once — into the
terminal max-attempts state and sends a single failure report prefixed
"MAX RETRY REACHED" and tagged with the failing operation. -/
theorem C10_attempt_limit_policy :
    (∀ (sid : String) (fs : List FailureEvent),
      (runFailures (initSession sid) fs).attemptCount = fs.length) ∧
    (∀ (sid : String) (fs : List FailureEvent), fs.length < MAX_ATTEMPTS →
      (runFailures (initSession sid) fs).maxAttemptsReached = false ∧
      (runFailures (initSession sid) fs).reports = [] ∧
      (runFailures (initSession sid) fs).sessionId = sid ∧
      (fs = [] ∨ (runFailures (initSession sid) fs).currentPhase = "error")) ∧
    (∀ (sid : String) (fs : List FailureEvent) (f : FailureEvent),
      sid ≠ "" → optStrTruthy f.merchantId = true → fs.length = 4 →
      (runFailures (initSession sid) (fs ++ [f])).maxAttemptsReached = true ∧
      (runFailures (initSession sid) (fs ++ [f])).currentPhase = "max-attempts-reached" ∧
      (runFailures (initSession sid) (fs ++ [f])).reports =
        [⟨"", sid, maxRetryReason f.message, operationTag f.operation,
          f.merchantId.getD ""⟩] ∧
      charsStartWith ("MAX RETRY REACHED".data) (maxRetryReason f.message).data = true) := by
  refine ⟨?_, ?_, ?_⟩
  · intro sid fs
    rw [runFailures_attemptCount]
    simp [initSession]
  · intro sid fs h
    exact runFailures_below fs (initSession sid) (by simpa [initSession] using h)
  · intro sid fs f hsid hmerch hlen
    have hmid := runFailures_below fs (initSession sid)
      (by simp [initSession, hlen, MAX_ATTEMPTS])
    have hcount : (runFailures (initSession sid) fs).attemptCount = 4 := by
      rw [runFailures_attemptCount, hlen]
      simp [initSession]
    rw [runFailures_append]
    set mid := runFailures (initSession sid) fs with hmiddef
    rw [runFailures, runFailures]
    have hsid' : (mid.sessionId != "") = true := by
      rw [hmid.2.2.1]
      simpa using hsid
    rw [handleDetectionFailure_at_max (by rw [hcount]; decide) hsid' hmerch]
    refine ⟨rfl, rfl, ?_, maxRetryReason_prefixed f.message⟩
    show mid.reports ++ _ = _
    rw [hmid.2.1, hmid.2.2.1]
    rfl

/-- C10 witness: four failures leave a retryable session with
`attemptCount = 4` and no report; a fifth enters the terminal state with a
single tagged report. -/
theorem C10_attempt_limit_policy_witness :
    (runFailures (initSession "s1") [failEventA, failEventA, failEventA, failEventA]).attemptCount
      = 4 ∧
    (runFailures (initSession "s1")
      [failEventA, failEventA, failEventA, failEventA]).maxAttemptsReached = false ∧
    (runFailures (initSession "s1")
      ([failEventA, failEventA, failEventA, failEventA] ++ [failEventA])).maxAttemptsReached
      = true ∧
    (runFailures (initSession "s1")
      ([failEventA, failEventA, failEventA, failEventA] ++ [failEventA])).reports =
      [⟨"", "s1", maxRetryReason failEventA.message, operationTag failEventA.operation,
        failEventA.merchantId.getD ""⟩] := by
  refine ⟨C10_attempt_limit_policy.1 "s1" _, ?_, ?_, ?_⟩
  · exact (C10_attempt_limit_policy.2.1 "s1"
      [failEventA, failEventA, failEventA, failEventA] (by decide)).1
  · exact (C10_attempt_limit_policy.2.2 "s1"
      [failEventA, failEventA, failEventA, failEventA] failEventA
      (by decide) (by decide) (by decide)).1
  · exact (C10_attempt_limit_policy.2.2 "s1"
      [failEventA, failEventA, failEventA, failEventA] failEventA
      (by decide) (by decide) (by decide)).2.2.1

/-- C2 (amended): for every back-side capture run in which no classification
response carries a terminal status (success / already_completed) and no
response carries a truthy legacy `encrypted_card_data`, the run resolves
successfully only when the resolved response has `back_frames_buffered ≥ 4`
and at least 2 of the 3 feature flags, on both the polling/timeout path and
the max-frames path; in particular with at most one feature flag throughout,
the run never resolves successfully. -/
theorem C2_back_success_requires_features (resps : List ApiResponse)
    (hnt : noTerminalStatus resps) (hnl : noLegacyEncrypted resps) :
    (∀ res, backRunTimeoutPath resps = .success res →
      4 ≤ (bufBack res).getD 0 ∧ 2 ≤ countBackSideFeatures res) ∧
    (∀ res, backRunMaxFramesPath resps = .success res →
      4 ≤ (bufBack res).getD 0 ∧ 2 ≤ countBackSideFeatures res) ∧
    ((∀ r ∈ resps, countBackSideFeatures r ≤ 1) →
      (∀ res, backRunTimeoutPath resps ≠ .success res) ∧
      (∀ res, backRunMaxFramesPath resps ≠ .success res)) := by
  refine ⟨?_, ?_, ?_⟩
  · intro res h
    exact (backRunTimeoutPath_success resps hnt hnl res h).2
  · intro res h
    exact (backRunMaxFramesPath_success resps hnt hnl res h).2
  · intro hfeat
    constructor
    · intro res h
      obtain ⟨hmem, _, hcnt⟩ := backRunTimeoutPath_success resps hnt hnl res h
      have h1 := hfeat res hmem
      have h2 : 2 ≤ countBackSideFeatures res := hcnt
      omega
    · intro res h
      obtain ⟨hmem, _, hcnt⟩ := backRunMaxFramesPath_success resps hnt hnl res h
      have h1 := hfeat res hmem
      have h2 : 2 ≤ countBackSideFeatures res := hcnt
      omega

/-- C2 witness: a clean run (buffered 4, magstrip and hologram set) resolves
successfully and indeed satisfies the predicate. -/
theorem C2_back_success_requires_features_witness :
    4 ≤ (bufBack respGoodBack).getD 0 ∧ 2 ≤ countBackSideFeatures respGoodBack := by
  refine (C2_back_success_requires_features [respGoodBack] ?_ ?_).1 respGoodBack (by decide)
  · intro r hr
    rw [List.mem_singleton] at hr
    subst hr
    exact ⟨by decide, by decide⟩
  · intro r hr
    rw [List.mem_singleton] at hr
    subst hr
    decide

/-- C2 counterexample: a run whose only response has the non-terminal status
"processing", a legacy `encrypted_card_data`, five buffered frames and a
single feature flag resolves successfully on both end paths, refuting the
claim as stated. -/
theorem C2_counterexample_legacy_encrypted :
    noTerminalStatus [respLegacyBack] ∧
    backRunTimeoutPath [respLegacyBack] = .success respLegacyBack ∧
    backRunMaxFramesPath [respLegacyBack] = .success respLegacyBack ∧
    bufBack respLegacyBack = some 5 ∧
    countBackSideFeatures respLegacyBack = 1 := by
  refine ⟨?_, by decide, by decide, by decide, by decide⟩
  intro r hr
  rw [List.mem_singleton] at hr
  subst hr
  exact ⟨by decide, by decide⟩

/-- C3: the feature-predicate success path resolves the raw response — a
response meeting the back predicate while carrying `encrypted_data` is
resolved unsanitised (on the polling path and equally via the fallbacks),
whereas the terminal-status path does resolve the sanitised copy. -/
theorem C3_sanitization_gap :
    backRunTimeoutPath [respSensitiveBack] = .success respSensitiveBack ∧
    respSensitiveBack.encrypted_data = some "SECRET" ∧
    backRunMaxFramesPath [respSensitiveBack] = .success respSensitiveBack ∧
    backRunTimeoutPath [respTerminalBack] = .success (sanitizeResponse respTerminalBack) ∧
    (sanitizeResponse respTerminalBack).encrypted_data = none ∧
    (sanitizeResponse respTerminalBack).encrypted_card_data = none := by
  exact ⟨by decide, rfl, by decide, by decide, rfl, rfl⟩

/-- C8 (amended): for every front-side capture run in which no response
carries a terminal status and no response carries a truthy legacy
`encrypted_card_data`, the run resolves successfully only when the resolved
response has `front_frames_buffered ≥ 4`, `chip = true` and
`bank_logo = true`, on both end paths; in particular when `bank_logo` never
becomes true the run never resolves successfully. -/
theorem C8_front_success_requires_chip_and_logo (img : String)
    (resps : List ApiResponse)
    (hnt : noTerminalStatus resps) (hnl : noLegacyEncrypted resps) :
    (∀ res, frontRunTimeoutPath img resps = .success res →
      4 ≤ (bufFront res).getD 0 ∧ res.chip = some true ∧ res.bank_logo = some true) ∧
    (∀ res, frontRunMaxFramesPath img resps = .success res →
      4 ≤ (bufFront res).getD 0 ∧ res.chip = some true ∧ res.bank_logo = some true) ∧
    ((∀ r ∈ resps, r.bank_logo ≠ some true) →
      (∀ res, frontRunTimeoutPath img resps ≠ .success res) ∧
      (∀ res, frontRunMaxFramesPath img resps ≠ .success res)) := by
  refine ⟨?_, ?_, ?_⟩
  · intro res h
    exact (frontRunTimeoutPath_success img resps hnt hnl res h).2
  · intro res h
    exact (frontRunMaxFramesPath_success img resps hnt hnl res h).2
  · intro hlogo
    constructor
    · intro res h
      obtain ⟨hmem, _, _, hbank⟩ := frontRunTimeoutPath_success img resps hnt hnl res h
      exact hlogo res hmem hbank
    · intro res h
      obtain ⟨hmem, _, _, hbank⟩ := frontRunMaxFramesPath_success img resps hnt hnl res h
      exact hlogo res hmem hbank

/-- C8 witness: a clean front run (buffered 4, chip and bank logo set)
resolves successfully and meets the predicate; Scenario C (chip true,
bank_logo false, 5 buffered frames repeatedly) never resolves successfully. -/
theorem C8_front_success_requires_chip_and_logo_witness :
    (4 ≤ (bufFront respGoodFront).getD 0 ∧ respGoodFront.chip = some true ∧
      respGoodFront.bank_logo = some true) ∧
    (∀ res, frontRunTimeoutPath "img" [respScenarioC, respScenarioC, respScenarioC] ≠
      .success res) := by
  constructor
  · refine (C8_front_success_requires_chip_and_logo "img" [respGoodFront] ?_ ?_).1
      respGoodFront (by decide)
    · intro r hr
      rw [List.mem_singleton] at hr
      subst hr
      exact ⟨by decide, by decide⟩
    · intro r hr
      rw [List.mem_singleton] at hr
      subst hr
      decide
  · refine ((C8_front_success_requires_chip_and_logo "img"
      [respScenarioC, respScenarioC, respScenarioC] ?_ ?_).2.2 ?_).1
    · intro r hr
      fin_cases hr <;> exact ⟨by decide, by decide⟩
    · intro r hr
      fin_cases hr <;> decide
    · intro r hr
      fin_cases hr <;> decide

/-- C8 counterexample: a front run whose only response has the non-terminal
status "processing", a legacy `encrypted_card_data`, five buffered frames,
chip true and bank_logo false resolves successfully, refuting the claim as
stated. -/
theorem C8_counterexample_legacy_encrypted :
    noTerminalStatus [respLegacyFront] ∧
    frontRunTimeoutPath "img" [respLegacyFront] = .success respLegacyFront ∧
    respLegacyFront.bank_logo = some false ∧
    bufFront respLegacyFront = some 5 := by
  refine ⟨?_, by decide, rfl, by decide⟩
  intro r hr
  rw [List.mem_singleton] at hr
  subst hr
  exact ⟨by decide, by decide⟩

/-- C1: over every sequence of gate operations started from the empty store,
a fetch response carrying an entry's payload occurs only after a successful
markVerified for that result id; every non-released fetch response carries
`complete_scan = false` (or is the missing-parameter 400); and the submit
response is independent of the submitted payload, is a 400 or a `postOk`,
and carries `complete_scan = false`. -/
theorem C1_fetch_never_leaks_before_verification :
    (∀ (ops : List GateOp) (i : Nat) (rid : String) (r : StoredResult),
      (gateOutputs gateState0 ops).get? i = some (GateResp.getReleased rid r) →
      ∃ j, j < i ∧ ∃ vid now,
        ops.get? j = some (GateOp.put (some rid) (some vid) now) ∧
        (gateOutputs gateState0 ops).get? j = some GateResp.putOk) ∧
    (∀ (s : GateState) (a b : Option String),
      (∀ rid r, (gateStep s (GateOp.get a b)).2 ≠ GateResp.getReleased rid r) →
      (gateStep s (GateOp.get a b)).2 =
          GateResp.badRequest "sessionId or resultId is required" ∨
      objGet (respBody (gateStep s (GateOp.get a b)).2) "complete_scan" =
          some (JVal.jBool false)) ∧
    (∀ (s : GateState) (a : Option String) (sd sd' : JObj) (m : Option String) (now : Nat),
      (gateStep s (GateOp.post a (some sd) m now)).2 =
        (gateStep s (GateOp.post a (some sd') m now)).2) ∧
    (∀ (s : GateState) (a : Option String) (osd : Option JObj) (m : Option String) (now : Nat),
      (gateStep s (GateOp.post a osd m now)).2 =
          GateResp.badRequest "sessionId and scanData are required" ∨
      ∃ rid, (gateStep s (GateOp.post a osd m now)).2 = GateResp.postOk rid ∧
        objGet (respBody (GateResp.postOk rid)) "complete_scan" =
          some (JVal.jBool false)) := by
  refine ⟨?_, ?_, ?_, ?_⟩
  · intro ops i rid r h
    rcases gateOutputs_released_has_put ops gateState0 i rid r h with ⟨r0, hmem⟩ | hput
    · exact absurd hmem (List.not_mem_nil _)
    · exact hput
  · intro s a b hnr
    rcases gateStep_get_resp_shape s a b with h | h | h | h | ⟨rid, r, h⟩
    · exact Or.inl h
    · exact Or.inr (by rw [h]; rfl)
    · exact Or.inr (by rw [h]; rfl)
    · exact Or.inr (by rw [h]; rfl)
    · exact absurd h (hnr rid r)
  · intro s a sd sd' m now
    cases a with
    | none => rfl
    | some sid =>
      simp only [gateStep]
      split <;> rfl
  · intro s a osd m now
    cases a with
    | none => cases osd <;> exact Or.inl rfl
    | some sid =>
      cases osd with
      | none => exact Or.inl rfl
      | some sd =>
        simp only [gateStep]
        split
        · exact Or.inl rfl
        · exact Or.inr ⟨_, rfl, rfl⟩

/-- C1 witness: on the concrete submit–verify–fetch trace the released fetch
at index 2 is preceded by the successful markVerified; concrete fetch and
submit responses carry `complete_scan = false`. -/
theorem C1_fetch_never_leaks_before_verification_witness :
    (∃ j, j < 2 ∧ ∃ vid now,
      roundTripOps.get? j = some (GateOp.put (some "result_s1_0") (some vid) now) ∧
      (gateOutputs gateState0 roundTripOps).get? j = some GateResp.putOk) ∧
    ((gateStep gateState0 (GateOp.get (some "s1") none)).2 =
        GateResp.badRequest "sessionId or resultId is required" ∨
      objGet (respBody (gateStep gateState0 (GateOp.get (some "s1") none)).2)
        "complete_scan" = some (JVal.jBool false)) ∧
    ((gateStep gateState0 (GateOp.post (some "s1") (some scanPayloadA) none 0)).2 =
      (gateStep gateState0 (GateOp.post (some "s1") (some scanPayloadClash) none 0)).2) ∧
    ((gateStep gateState0 (GateOp.post (some "s1") (some scanPayloadA) none 0)).2 =
        GateResp.badRequest "sessionId and scanData are required" ∨
      ∃ rid, (gateStep gateState0 (GateOp.post (some "s1") (some scanPayloadA) none 0)).2 =
          GateResp.postOk rid ∧
        objGet (respBody (GateResp.postOk rid)) "complete_scan" =
          some (JVal.jBool false)) := by
  refine ⟨?_, ?_, ?_, ?_⟩
  · exact C1_fetch_never_leaks_before_verification.1 roundTripOps 2 "result_s1_0"
      roundTripEntry (by decide)
  · exact C1_fetch_never_leaks_before_verification.2.1 gateState0 (some "s1") none
      (by intro rid r h; cases h)
  · exact C1_fetch_never_leaks_before_verification.2.2.1 gateState0 (some "s1")
      scanPayloadA scanPayloadClash none 0
  · exact C1_fetch_never_leaks_before_verification.2.2.2 gateState0 (some "s1")
      (some scanPayloadA) none 0

/-- C4 (amended): submit, successful markVerified, then fetch-by-result-id
returns the released response, and — provided the payload's keys are distinct
and none of them is an envelope key (the payload is spread last and would
override the envelope) — the response carries `success`, `status "verified"`,
`complete_scan = true`, `voice_verified = true`, the verification id passed
to markVerified, and every key/value pair of the submitted payload. -/
theorem C4_round_trip_releases_payload (s : GateState) (sid : String) (sd : JObj)
    (mid : Option String) (now now2 : Nat) (vid : String)
    (hsid : sid ≠ "") (hvid : vid ≠ "")
    (hnodup : (sd.map Prod.fst).Nodup)
    (hres : ∀ k ∈ sd.map Prod.fst, k ∉ reservedRespKeys) :
    gateOutputs s
      [GateOp.post (some sid) (some sd) mid now,
       GateOp.put (some ("result_" ++ sid ++ "_" ++ toString now)) (some vid) now2,
       GateOp.get none (some ("result_" ++ sid ++ "_" ++ toString now))] =
      [GateResp.postOk ("result_" ++ sid ++ "_" ++ toString now),
       GateResp.putOk,
       GateResp.getReleased ("result_" ++ sid ++ "_" ++ toString now)
         ⟨sid, mid, sd, true, some vid, now, some now2⟩] ∧
    objGet (releasedBody ⟨sid, mid, sd, true, some vid, now, some now2⟩) "success" =
      some (JVal.jBool true) ∧
    objGet (releasedBody ⟨sid, mid, sd, true, some vid, now, some now2⟩) "status" =
      some (JVal.jStr "verified") ∧
    objGet (releasedBody ⟨sid, mid, sd, true, some vid, now, some now2⟩) "complete_scan" =
      some (JVal.jBool true) ∧
    objGet (releasedBody ⟨sid, mid, sd, true, some vid, now, some now2⟩) "voice_verified" =
      some (JVal.jBool true) ∧
    objGet (releasedBody ⟨sid, mid, sd, true, some vid, now, some now2⟩) "verificationId" =
      some (JVal.jStr vid) ∧
    ∀ k v, (k, v) ∈ sd →
      objGet (releasedBody ⟨sid, mid, sd, true, some vid, now, some now2⟩) k = some v := by
  have hrid_ne : ("result_" ++ sid ++ "_" ++ toString now) ≠ "" := by
    intro hc
    have hd := congrArg String.data hc
    simp only [String.data_append, show ("" : String).data = [] from rfl] at hd
    rcases List.append_eq_nil.mp hd with ⟨hd1, _⟩
    rcases List.append_eq_nil.mp hd1 with ⟨hd2, _⟩
    rcases List.append_eq_nil.mp hd2 with ⟨hd3, _⟩
    exact absurd hd3 (by decide)
  have hbneg_sid : ¬ ((sid == "") = true) := by simp [hsid]
  have h1 : gateStep s (GateOp.post (some sid) (some sd) mid now) =
      (cleanupExpiredResults now
        ⟨mapSet s.pending ("result_" ++ sid ++ "_" ++ toString now)
          ⟨sid, mid, sd, false, none, now, none⟩, s.verified⟩,
       GateResp.postOk ("result_" ++ sid ++ "_" ++ toString now)) := by
    simp only [gateStep]
    rw [if_neg hbneg_sid]
  have hpend : mapGet (gateStep s
        (GateOp.post (some sid) (some sd) mid now)).1.pending
        ("result_" ++ sid ++ "_" ++ toString now) =
      some ⟨sid, mid, sd, false, none, now, none⟩ := by
    rw [h1]
    refine mapGet_filter_keep (mapGet_mapSet_self _ _ _) ?_
    have hno : ¬ (now < now - fiveMinutesMs) := by omega
    simp [hno]
  have hcond2 : ¬ ((("result_" ++ sid ++ "_" ++ toString now) == "" || vid == "") = true) := by
    simp [hrid_ne, hvid]
  have h2a : ∀ S : GateState,
      mapGet S.pending ("result_" ++ sid ++ "_" ++ toString now) =
        some ⟨sid, mid, sd, false, none, now, none⟩ →
      gateStep S (GateOp.put (some ("result_" ++ sid ++ "_" ++ toString now))
          (some vid) now2) =
        (⟨mapDeleteList S.pending ("result_" ++ sid ++ "_" ++ toString now),
          mapSet S.verified ("result_" ++ sid ++ "_" ++ toString now)
            ⟨sid, mid, sd, true, some vid, now, some now2⟩⟩,
         GateResp.putOk) := by
    intro S hS
    simp only [gateStep]
    rw [if_neg hcond2, hS]
  have h2 := h2a (gateStep s (GateOp.post (some sid) (some sd) mid now)).1 hpend
  have hcond3 : ¬ ((!optStrTruthy none &&
      !optStrTruthy (some ("result_" ++ sid ++ "_" ++ toString now))) = true) := by
    simp [optStrTruthy, hrid_ne]
  have hcond4 : ((("result_" ++ sid ++ "_" ++ toString now) != "") = true) := by
    simp [hrid_ne]
  have hv : mapGet (gateStep (gateStep s (GateOp.post (some sid) (some sd) mid now)).1
        (GateOp.put (some ("result_" ++ sid ++ "_" ++ toString now)) (some vid) now2)).1.verified
        ("result_" ++ sid ++ "_" ++ toString now) =
      some ⟨sid, mid, sd, true, some vid, now, some now2⟩ := by
    rw [h2]
    exact mapGet_mapSet_self _ _ _
  have h3a : ∀ S : GateState,
      mapGet S.verified ("result_" ++ sid ++ "_" ++ toString now) =
        some ⟨sid, mid, sd, true, some vid, now, some now2⟩ →
      (gateStep S (GateOp.get none (some ("result_" ++ sid ++ "_" ++ toString now)))).2 =
        GateResp.getReleased ("result_" ++ sid ++ "_" ++ toString now)
          ⟨sid, mid, sd, true, some vid, now, some now2⟩ := by
    intro S hS
    simp only [gateStep]
    rw [if_neg hcond3]
    rw [if_pos hcond4, hS]
    rfl
  have h3 := h3a (gateStep (gateStep s (GateOp.post (some sid) (some sd) mid now)).1
      (GateOp.put (some ("result_" ++ sid ++ "_" ++ toString now)) (some vid) now2)).1 hv
  have hkenc : "encrypted_data" ∉ sd.map Prod.fst :=
    fun hmem => hres _ hmem (by decide)
  have hencnone : objGet sd "encrypted_data" = none := mapGet_eq_none_of_notin hkenc
  have hbody : releasedBody ⟨sid, mid, sd, true, some vid, now, some now2⟩ =
      objInsertAll
        [("success", JVal.jBool true), ("status", JVal.jStr "verified"),
         ("complete_scan", JVal.jBool true), ("voice_verified", JVal.jBool true),
         ("verificationId", JVal.jStr vid), ("verifiedAt", JVal.jNum now2)] sd := by
    simp only [releasedBody, hencnone]
    rfl
  have hgetres : ∀ k0 : String, k0 ∈ reservedRespKeys →
      objGet (releasedBody ⟨sid, mid, sd, true, some vid, now, some now2⟩) k0 =
        objGet [("success", JVal.jBool true), ("status", JVal.jStr "verified"),
          ("complete_scan", JVal.jBool true), ("voice_verified", JVal.jBool true),
          ("verificationId", JVal.jStr vid), ("verifiedAt", JVal.jNum now2)] k0 := by
    intro k0 hk0
    rw [hbody]
    exact objGet_objInsertAll_notin (fun hmem => hres _ hmem hk0)
  refine ⟨?_, ?_, ?_, ?_, ?_, ?_, ?_⟩
  · rw [gateOutputs, gateOutputs, gateOutputs, gateOutputs, h3, h2, h1]
  · rw [hgetres "success" (by decide)]
    rfl
  · rw [hgetres "status" (by decide)]
    rfl
  · rw [hgetres "complete_scan" (by decide)]
    rfl
  · rw [hgetres "voice_verified" (by decide)]
    rfl
  · rw [hgetres "verificationId" (by decide)]
    rfl
  · intro k v hkv
    rw [hbody]
    exact objGet_objInsertAll_mem hnodup hkv

/-- C4 witness: the concrete round trip with payload `{score: 9}` yields the
released response with all envelope fields and the payload value. -/
theorem C4_round_trip_releases_payload_witness :
    gateOutputs gateState0 roundTripOps =
      [GateResp.postOk "result_s1_0", GateResp.putOk,
       GateResp.getReleased "result_s1_0"
         ⟨"s1", none, scanPayloadA, true, some "v1", 0, some 1⟩] ∧
    objGet (releasedBody ⟨"s1", none, scanPayloadA, true, some "v1", 0, some 1⟩)
      "complete_scan" = some (JVal.jBool true) ∧
    objGet (releasedBody ⟨"s1", none, scanPayloadA, true, some "v1", 0, some 1⟩)
      "verificationId" = some (JVal.jStr "v1") ∧
    objGet (releasedBody ⟨"s1", none, scanPayloadA, true, some "v1", 0, some 1⟩)
      "score" = some (JVal.jNum 9) := by
  have h := C4_round_trip_releases_payload gateState0 "s1" scanPayloadA none 0 1 "v1"
    (by decide) (by decide) (by decide) (by decide)
  exact ⟨h.1, h.2.2.2.1, h.2.2.2.2.2.1, h.2.2.2.2.2.2 "score" (JVal.jNum 9) (by decide)⟩

/-- C4 counterexample: with the payload `{complete_scan: false}` the verified
fetch response carries `complete_scan = false` — the spread payload overrides
the envelope — refuting the claim as stated for arbitrary payloads. -/
theorem C4_counterexample_payload_override :
    (gateOutputs gateState0 roundTripClashOps).get? 2 =
      some (GateResp.getReleased "result_s1_0"
        ⟨"s1", none, scanPayloadClash, true, some "v1", 0, some 1⟩) ∧
    objGet (respBody (GateResp.getReleased "result_s1_0"
        ⟨"s1", none, scanPayloadClash, true, some "v1", 0, some 1⟩)) "complete_scan" =
      some (JVal.jBool false) := by
  decide

/-- C5 (amended): an entry that exists only in the Pending table yields the
"still pending" response when fetched by its session id, but fetching by its
result id consults only the Verified table and yields the 404 not-found
response; both responses carry `complete_scan = false` and no payload. -/
theorem C5_pending_entry_fetch (s : GateState) (sid rid : String)
    (hsid : sid ≠ "") (hrid : rid ≠ "")
    (hvs : s.verified.find? (fun p => p.2.sessionId == sid) = none)
    (hps : (s.pending.find? (fun p => p.2.sessionId == sid)).isSome = true)
    (hvr : mapGet s.verified rid = none) :
    (gateStep s (GateOp.get (some sid) none)).2 = GateResp.getPendingSession ∧
    (gateStep s (GateOp.get none (some rid))).2 = GateResp.getNotFound ∧
    objGet (respBody GateResp.getPendingSession) "complete_scan" =
      some (JVal.jBool false) ∧
    objGet (respBody GateResp.getNotFound) "complete_scan" = some (JVal.jBool false) := by
  refine ⟨?_, ?_, rfl, rfl⟩
  · have hcond : ¬ ((!optStrTruthy (some sid) && !optStrTruthy none) = true) := by
      simp [optStrTruthy, hsid]
    simp only [gateStep]
    rw [if_neg hcond]
    rw [getBySession]
    simp only [Option.getD]
    rw [hvs]
    cases hp : s.pending.find? (fun p => p.2.sessionId == sid) with
    | none => rw [hp] at hps; cases hps
    | some q => rfl
  · have hcond : ¬ ((!optStrTruthy none && !optStrTruthy (some rid)) = true) := by
      simp [optStrTruthy, hrid]
    simp only [gateStep]
    rw [if_neg hcond]
    rw [if_pos (by simp [hrid]), hvr]

/-- C5 witness: after a single submit, fetching by session id is "still
pending" while fetching by the result id is 404. -/
theorem C5_pending_entry_fetch_witness :
    (gateStep (gateRun gateState0 [GateOp.post (some "s1") (some scanPayloadA) none 0])
      (GateOp.get (some "s1") none)).2 = GateResp.getPendingSession ∧
    (gateStep (gateRun gateState0 [GateOp.post (some "s1") (some scanPayloadA) none 0])
      (GateOp.get none (some "result_s1_0"))).2 = GateResp.getNotFound ∧
    objGet (respBody GateResp.getPendingSession) "complete_scan" =
      some (JVal.jBool false) ∧
    objGet (respBody GateResp.getNotFound) "complete_scan" = some (JVal.jBool false) :=
  C5_pending_entry_fetch _ "s1" "result_s1_0" (by decide) (by decide)
    (by decide) (by decide) (by decide)

/-- C5 counterexample: for a pending-only entry, fetch by result id returns
the 404 not-found response, not the "still pending" response the claim
requires for both lookup keys. -/
theorem C5_counterexample_result_id_lookup :
    gateOutputs gateState0 pendingByResultIdOps =
      [GateResp.postOk "result_s1_0", GateResp.getNotFound] ∧
    GateResp.getNotFound ≠ GateResp.getPendingSession ∧
    gateOutputs gateState0
      [GateOp.post (some "s1") (some scanPayloadA) none 0, GateOp.get (some "s1") none] =
      [GateResp.postOk "result_s1_0", GateResp.getPendingSession] := by
  decide

end CardScan
